import Mathlib

/-!
# NX mass-property extractor: embedding of `extract_mass_properties_fixed.cpp`

The translation unit `extract_mass_properties_fixed.cpp` is embedded function by
function.  Its sibling `extract_mass_properties.cpp` is the same program with the
comments and the string literals (unit names, messages, the measure name passed to
`GetBase`) written in Chinese; the control flow and every numeric constant coincide.

Conventions of the embedding

* `double` values are exact rationals (`ℚ`); decimal literals are read exactly.
* `std::string` is `String`; positions count characters.
* A C++ exception derived from `std::exception` is its `what()` text (`Exn`); a host
  call that may throw returns `Except Exn _`.
* A pointer that may be null is an `Option`.
* Out-parameters and local variables that are assigned in several places are fields
  of an explicit state record that is threaded through the code, so that a value
  written before an exception is still there when the handler runs.
-/

namespace MassProps

/-- The `what()` text of a thrown `std::exception`. -/
abbrev Exn := String

/-! ## `std::string` searching -/

/-- Scan for the first position at or after `i` where `pat` starts (`std::string::find`
on the character sequence; `none` is `npos`). -/
def findFrom (pat : List Char) : List Char → Nat → Option Nat
  | [], i => if pat.isPrefixOf [] then some i else none
  | c :: cs, i => if pat.isPrefixOf (c :: cs) then some i else findFrom pat cs (i + 1)

/-- Model of `s.find(pat)`: position of the first occurrence, `none` for `string::npos`. -/
def find (s pat : String) : Option Nat := findFrom pat.data s.data 0

/-- The test `s.find(pat) != string::npos`. -/
def found (s pat : String) : Bool := (find s pat).isSome

/-! ## Unit factors (lines 27-93) -/

/-- Density constant: 7.85 g/cm^3 = 7850 kg/m^3. -/
def DENSITY_KG_PER_M3 : ℚ := 7850.0

/-- Unit conversion factors. -/
structure UnitFactors where
  unitName : String
  lengthFactor : ℚ
  areaFactor : ℚ
  volumeFactor : ℚ
  deriving DecidableEq, Repr

/-- Host model of `NXOpen::Unit`. -/
structure UnitH where
  JournalIdentifier : Except Exn String

/-- Host model of `NXOpen::UnitCollection`: `GetBase(measure)`. -/
structure UnitCollectionH where
  GetBase : String → Except Exn UnitH

/-- The statements of the `try` block of `GetDisplayUnitFactors` (lines 50-84), run on the
variable `factors`.  The three host calls come first and are the only statements that can
throw; nothing has been assigned when one of them does. -/
def unitTryBlock (unitCollection : Except Exn UnitCollectionH) (factors : UnitFactors) :
    Option Exn × UnitFactors :=
  match unitCollection with
  | .error e => (some e, factors)
  | .ok uc =>
    match uc.GetBase "Length" with
    | .error e => (some e, factors)
    | .ok lengthUnit =>
      match lengthUnit.JournalIdentifier with
      | .error e => (some e, factors)
      | .ok journalId =>
        if found journalId "MilliMeter" then
          (none, { factors with unitName := "Millimeter", lengthFactor := 0.001,
                                areaFactor := 1e-6, volumeFactor := 1e-9 })
        else if found journalId "Meter" then
          (none, { factors with unitName := "Meter", lengthFactor := 1.0,
                                areaFactor := 1.0, volumeFactor := 1.0 })
        else if found journalId "Inch" then
          (none, { factors with unitName := "Inch", lengthFactor := 0.0254,
                                areaFactor := 6.4516e-4, volumeFactor := 1.6387e-5 })
        else if found journalId "Foot" then
          (none, { factors with unitName := "Foot", lengthFactor := 0.3048,
                                areaFactor := 0.092903, volumeFactor := 0.0283168 })
        else (none, factors)

/-- Model of `GetDisplayUnitFactors(part)`; the part is seen through the result of
`part->UnitCollection()`. -/
def GetDisplayUnitFactors (unitCollection : Except Exn UnitCollectionH) : UnitFactors :=
  let factors : UnitFactors :=
    { unitName := "Unknown", lengthFactor := 0.001, areaFactor := 1e-6, volumeFactor := 1e-9 }
  match unitTryBlock unitCollection factors with
  | (none, factors) => factors
  | (some _, factors) => { factors with unitName := "Default (mm)" }

/-- A part whose length-unit lookup succeeds with the journal identifier `journalId`. -/
def lookupOk (journalId : String) : Except Exn UnitCollectionH :=
  .ok { GetBase := fun _ => .ok { JournalIdentifier := .ok journalId } }

/-- The unit lookup of `unitCollection` succeeds and yields `journalId`: the three host
calls of the `try` block all return. -/
def LookupYields (unitCollection : Except Exn UnitCollectionH) (journalId : String) : Prop :=
  ∃ uc lengthUnit, unitCollection = .ok uc ∧ uc.GetBase "Length" = .ok lengthUnit ∧
    lengthUnit.JournalIdentifier = .ok journalId

/-- The unit lookup of `unitCollection` raises: one of the three host calls throws. -/
def LookupRaises (unitCollection : Except Exn UnitCollectionH) : Prop :=
  (∃ e, unitCollection = .error e) ∨
  (∃ uc e, unitCollection = .ok uc ∧ uc.GetBase "Length" = .error e) ∨
  (∃ uc lengthUnit e, unitCollection = .ok uc ∧ uc.GetBase "Length" = .ok lengthUnit ∧
    lengthUnit.JournalIdentifier = .error e)

/-- The four factor rows, named after the unit they belong to. -/
def millimeterFactors : UnitFactors :=
  { unitName := "Millimeter", lengthFactor := 0.001, areaFactor := 1e-6, volumeFactor := 1e-9 }

def meterFactors : UnitFactors :=
  { unitName := "Meter", lengthFactor := 1, areaFactor := 1, volumeFactor := 1 }

def inchFactors : UnitFactors :=
  { unitName := "Inch", lengthFactor := 0.0254, areaFactor := 6.4516e-4,
    volumeFactor := 1.6387e-5 }

def footFactors : UnitFactors :=
  { unitName := "Foot", lengthFactor := 0.3048, areaFactor := 0.092903,
    volumeFactor := 0.0283168 }

/-! ## Body retrieval (lines 95-137) -/

/-- A `NXOpen::Body*`: `none` is `nullptr`, `some k` the body with handle `k`. -/
abbrev BodyPtr := Option Nat

/-- Host model of `NXOpen::BodyCollection`.  `GetSize` returns an `int`. -/
structure BodyCollectionH where
  GetSize : Except Exn Int
  GetItem : Nat → Except Exn BodyPtr
  ToArray : Except Exn (List BodyPtr)

/-- Host model of the object `NewMassProperties` returns. -/
structure MassPropertiesH where
  Volume : Except Exn ℚ
  SurfaceArea : Except Exn ℚ

/-- Host model of `NXOpen::MeasureManager`.  The first argument of `NewMassProperties` is
the number of requests this manager has already received, so that the kernel may answer
two requests for the same bodies differently. -/
structure MeasureManagerH where
  NewMassProperties : Nat → List BodyPtr → Except Exn MassPropertiesH

/-- Host model of an open `NXOpen::Part`.  The argument of `Bodies` is the number of times
`part->Bodies()` has been called before. -/
structure Part where
  UnitCollection : Except Exn UnitCollectionH
  Bodies : Nat → Except Exn BodyCollectionH
  MeasureManager : Except Exn MeasureManagerH
  Close : Except Exn Unit

/-- The loop `for (i = 0; i < count; i++)` of lines 105-112 over the remaining indices:
non-null items are appended to `bodies`; what was appended stays when `GetItem` throws. -/
def getItemLoop (bodyCollection : BodyCollectionH) :
    List Nat → List BodyPtr → Option Exn × List BodyPtr
  | [], bodies => (none, bodies)
  | i :: rest, bodies =>
    match bodyCollection.GetItem i with
    | .error e => (some e, bodies)
    | .ok body =>
      if body ≠ none then getItemLoop bodyCollection rest (bodies ++ [body])
      else getItemLoop bodyCollection rest bodies

/-- The outer `try` block of `GetAllBodies` (lines 102-112). -/
def bodiesTryBlock (part : Part) (bodies : List BodyPtr) : Option Exn × List BodyPtr :=
  match part.Bodies 0 with
  | .error e => (some e, bodies)
  | .ok bodyCollection =>
    match bodyCollection.GetSize with
    | .error e => (some e, bodies)
    | .ok count => getItemLoop bodyCollection (List.range count.toNat) bodies

/-- The inner `try` block of `GetAllBodies` (lines 119-128): the `ToArray` variant.  Every
array slot below `count` is appended, null or not; a slot past the end of the array
(undefined behaviour in C++) reads as a null pointer. -/
def toArrayTryBlock (part : Part) (bodies : List BodyPtr) : Option Exn × List BodyPtr :=
  match part.Bodies 1 with
  | .error e => (some e, bodies)
  | .ok bodyCollection =>
    match bodyCollection.ToArray with
    | .error e => (some e, bodies)
    | .ok bodyArray =>
      match bodyCollection.GetSize with
      | .error e => (some e, bodies)
      | .ok count =>
        (none, bodies ++ (List.range count.toNat).map (fun i => bodyArray.getD i none))

/-- Model of `GetAllBodies(part)`. -/
def GetAllBodies (part : Part) : Except Exn (List BodyPtr) :=
  match bodiesTryBlock part [] with
  | (none, bodies) => .ok bodies
  | (some _, bodies) =>
    match toArrayTryBlock part bodies with
    | (none, bodies) => .ok bodies
    | (some _, _) => .error "Cannot get bodies"

/-! ## Mass properties (lines 139-218) -/

/-- A call into the measurement kernel, as recorded in the order it is made. -/
inductive KernelCall
  | measureManager
  | newMassProperties (bodies : List BodyPtr)
  | volume
  | surfaceArea
  | release
  deriving DecidableEq, Repr

/-- The four out-parameters of `CalculateMassProperties`, and the record of the kernel
calls made so far. -/
structure CalcVars where
  totalMassKg : ℚ
  totalSurfaceAreaM2 : ℚ
  unitName : String
  volumeM3 : ℚ
  calls : List KernelCall

/-- The `try` block of lines 164-186: one measurement over all bodies. -/
def aggregateTryBlock (measureMgr : MeasureManagerH) (bodies : List BodyPtr)
    (factors : UnitFactors) (densityKgPerM3 : ℚ) (v : CalcVars) : Option Exn × CalcVars :=
  let v := { v with calls := v.calls ++ [.newMassProperties bodies] }
  match measureMgr.NewMassProperties 0 bodies with
  | .error e => (some e, v)
  | .ok massProps =>
    let v := { v with calls := v.calls ++ [.volume] }
    match massProps.Volume with
    | .error e => (some e, v)
    | .ok volumeDisplayUnits =>
      let v := { v with volumeM3 := volumeDisplayUnits * factors.volumeFactor }
      let v := { v with totalMassKg := v.volumeM3 * densityKgPerM3 }
      let v := { v with calls := v.calls ++ [.surfaceArea] }
      match massProps.SurfaceArea with
      | .error e => (some e, v)
      | .ok surfaceAreaDisplayUnits =>
        let v := { v with totalSurfaceAreaM2 := surfaceAreaDisplayUnits * factors.areaFactor }
        (none, { v with calls := v.calls ++ [.release] })

/-- The loop `for (body : bodies)` of lines 194-214; `k` is the number of requests the
measure manager has received before the request for the first remaining body. -/
def perBodyLoop (measureMgr : MeasureManagerH) (factors : UnitFactors) :
    Nat → List BodyPtr → CalcVars → CalcVars
  | _, [], v => v
  | k, body :: rest, v =>
    let v := { v with calls := v.calls ++ [.newMassProperties [body]] }
    match measureMgr.NewMassProperties k [body] with
    | .error _ => perBodyLoop measureMgr factors (k + 1) rest v
    | .ok bodyProps =>
      let v := { v with calls := v.calls ++ [.volume] }
      match bodyProps.Volume with
      | .error _ => perBodyLoop measureMgr factors (k + 1) rest v
      | .ok vol =>
        let bodyVolume := vol * factors.volumeFactor
        let v := { v with calls := v.calls ++ [.surfaceArea] }
        match bodyProps.SurfaceArea with
        | .error _ => perBodyLoop measureMgr factors (k + 1) rest v
        | .ok area =>
          let bodySurfaceArea := area * factors.areaFactor
          let v := { v with volumeM3 := v.volumeM3 + bodyVolume }
          let v := { v with totalSurfaceAreaM2 := v.totalSurfaceAreaM2 + bodySurfaceArea }
          let v := { v with calls := v.calls ++ [.release] }
          perBodyLoop measureMgr factors (k + 1) rest v

/-- Model of `CalculateMassProperties`: `v` holds the caller's variables the out-parameters
refer to; the result is the exception that left the function, if any, and the variables
as they are at that moment. -/
def CalculateMassProperties (part : Part) (densityKgPerM3 : ℚ) (v : CalcVars) :
    Option Exn × CalcVars :=
  let v := { v with totalMassKg := 0.0 }
  let v := { v with totalSurfaceAreaM2 := 0.0 }
  let v := { v with volumeM3 := 0.0 }
  let factors := GetDisplayUnitFactors part.UnitCollection
  let v := { v with unitName := factors.unitName }
  match GetAllBodies part with
  | .error e => (some e, v)
  | .ok bodies =>
    if bodies.isEmpty then (none, v)
    else
      let v := { v with calls := v.calls ++ [.measureManager] }
      match part.MeasureManager with
      | .error e => (some e, v)
      | .ok measureMgr =>
        match aggregateTryBlock measureMgr bodies factors densityKgPerM3 v with
        | (none, v) => (none, v)
        | (some _, v) =>
          let v := { v with totalMassKg := 0.0 }
          let v := { v with totalSurfaceAreaM2 := 0.0 }
          let v := { v with volumeM3 := 0.0 }
          let v := perBodyLoop measureMgr factors 1 bodies v
          (none, { v with totalMassKg := v.volumeM3 * densityKgPerM3 })

/-- The variables as the driver declares them before the call (lines 329-332), with an
empty record of kernel calls. -/
def callerVars : CalcVars :=
  { totalMassKg := 0.0, totalSurfaceAreaM2 := 0.0, unitName := "", volumeM3 := 0.0,
    calls := [] }

/-! ## Directory scan (lines 220-258) -/

/-- The two fields of `WIN32_FIND_DATAA` the program reads. -/
structure WIN32_FIND_DATAA where
  dwFileAttributes : Nat
  cFileName : String

/-- The platform constant of `windows.h`. -/
def FILE_ATTRIBUTE_DIRECTORY : Nat := 0x10

/-- What a search started by `FindFirstFileA` enumerates: `none` is `INVALID_HANDLE_VALUE`;
otherwise the entry `FindFirstFileA` stores and the entries the following calls of
`FindNextFileA` store before it returns 0. -/
abbrev FindResult := Option (WIN32_FIND_DATAA × List WIN32_FIND_DATAA)

/-- The `do ... while (FindNextFileA(...) != 0)` loop of lines 244-253: `findData` is the
current entry, `rest` what `FindNextFileA` will still deliver. -/
def scanLoop (folderPath : String) (findData : WIN32_FIND_DATAA)
    (rest : List WIN32_FIND_DATAA) (prtFiles : List String) : List String :=
  let prtFiles :=
    if findData.dwFileAttributes &&& FILE_ATTRIBUTE_DIRECTORY = 0 then
      prtFiles ++ [folderPath ++ "\\" ++ findData.cFileName]
    else prtFiles
  match rest with
  | [] => prtFiles
  | next :: more => scanLoop folderPath next more prtFiles

/-- Model of `GetPrtFilesInFolder(folderPath)`; `FindFirstFileA` answers a search path. -/
def GetPrtFilesInFolder (FindFirstFileA : String → FindResult) (folderPath : String) :
    List String :=
  let prtFiles : List String := []
  match FindFirstFileA (folderPath ++ "\\*.prt") with
  | some (findData, rest) => scanLoop folderPath findData rest prtFiles
  | none =>
    match FindFirstFileA (folderPath ++ "\\*.PRT") with
    | some (findData, rest) => scanLoop folderPath findData rest prtFiles
    | none => prtFiles

/-! ## The driver `ufusr` (lines 260-384) -/

/-- Everything outside the program that `ufusr` talks to.  `WriteLine` is asked with the
lines the listing window already holds, so it may start to fail at any moment.
`to_string` is `std::to_string(double)`, whose text format the source does not fix. -/
structure Host where
  GetSession : Except Exn Unit
  ListingWindow : Except Exn Unit
  Open : Except Exn Unit
  WriteLine : List String → String → Except Exn Unit
  GetCurrentDirectoryA : String
  FindFirstFileA : String → FindResult
  Parts : Except Exn Unit
  OpenBasePart : String → Except Exn (Option Part)
  to_string : ℚ → String

/-- What a run of `ufusr` leaves behind: the value stored through `retcode`, the lines in
the listing window, the paths passed to `OpenBasePart` in call order, and the paths of
the parts that were opened and on which `Close` has not returned. -/
structure Run where
  retcode : Int
  lines : List String
  attempted : List String
  resident : List String
  deriving DecidableEq, Repr

/-- Statement sequencing: the continuation runs unless an exception is in flight. -/
def andThen {σ : Type} (r : Option Exn × σ) (k : σ → Option Exn × σ) : Option Exn × σ :=
  match r with
  | (none, s) => k s
  | (some e, s) => (some e, s)

/-- One statement `lw->WriteLine(text)`. -/
def lwWriteLine (h : Host) (text : String) (s : Run) : Option Exn × Run :=
  match h.WriteLine s.lines text with
  | .error e => (some e, s)
  | .ok _ => (none, { s with lines := s.lines ++ [text] })

/-- Consecutive `lw->WriteLine` statements. -/
def writeLines (h : Host) : List String → Run → Option Exn × Run
  | [], s => (none, s)
  | text :: more, s => andThen (lwWriteLine h text s) (writeLines h more)

/-- Scan for `s.find_last_of(chars)`: `acc` is the last hit before position `i`. -/
def findLastOfFrom (chars : List Char) : List Char → Nat → Option Nat → Option Nat
  | [], _, acc => acc
  | c :: cs, i, acc => findLastOfFrom chars cs (i + 1) (if c ∈ chars then some i else acc)

/-- Model of `s.find_last_of(chars)`; `none` is `string::npos`. -/
def find_last_of (s chars : String) : Option Nat := findLastOfFrom chars.data s.data 0 none

/-- Model of `s.substr(pos)` for `pos` not past the end. -/
def substr (s : String) (pos : Nat) : String := String.mk (s.data.drop pos)

/-- The file-name extraction of lines 296-297 and 310-311. -/
def displayName (file : String) : String :=
  match find_last_of file "\\/" with
  | some lastSlash => substr file (lastSlash + 1)
  | none => file

/-- The seven lines written for a measured part (lines 339-350). -/
def resultLines (h : Host) (v : CalcVars) : List String :=
  let massGrams := v.totalMassKg * 1000.0
  let surfaceAreaCm2 := v.totalSurfaceAreaM2 * 10000.0
  [ "  Unit system: " ++ v.unitName,
    "  Volume: " ++ h.to_string v.volumeM3 ++ " m^3",
    "  Mass: " ++ h.to_string v.totalMassKg ++ " kg",
    "  Surface area: " ++ h.to_string v.totalSurfaceAreaM2 ++ " m^2",
    "  Mass: " ++ h.to_string massGrams ++ " g",
    "  Surface area: " ++ h.to_string surfaceAreaCm2 ++ " cm^2",
    "" ]

/-- The `try` block of one loop iteration (lines 309-359). -/
def fileTryBlock (h : Host) (filePath : String) (s : Run) : Option Exn × Run :=
  let fileName := displayName filePath
  andThen (lwWriteLine h ("Processing file: " ++ fileName) s) fun s =>
    let s := { s with attempted := s.attempted ++ [filePath] }
    match h.OpenBasePart filePath with
    | .error e => (some e, s)
    | .ok none => lwWriteLine h "  Error: Cannot open part" s
    | .ok (some part) =>
      let s := { s with resident := s.resident ++ [filePath] }
      match CalculateMassProperties part DENSITY_KG_PER_M3 callerVars with
      | (some e, _) => (some e, s)
      | (none, v) =>
        andThen (writeLines h (resultLines h v) s) fun s =>
          match part.Close with
          | .error e => (some e, s)
          | .ok _ => (none, { s with resident := s.resident.erase filePath })

/-- The loop `for (filePath : prtFiles)` of lines 305-366, each iteration with its `catch`
handler; an exception thrown by the handler itself leaves the loop. -/
def fileLoop (h : Host) : List String → Run → Option Exn × Run
  | [], s => (none, s)
  | filePath :: rest, s =>
    match fileTryBlock h filePath s with
    | (none, s) => fileLoop h rest s
    | (some e, s) =>
      andThen (writeLines h ["  Error processing file: " ++ e, ""] s) (fileLoop h rest)

/-- The lines written before the scan (lines 271-280). -/
def bannerLines (folderPath : String) : List String :=
  [ "=== NX Mass Property Extractor (C++ Version) ===",
    "Density: 7.85 g/cm^3 = 7850 kg/m^3",
    "",
    "Scanning folder: " ++ folderPath ]

/-- The lines written when the scan found nothing (lines 287-288). -/
def noFilesLines (folderPath : String) : List String :=
  [ "No .prt files found.",
    "Please place .prt files in current directory: " ++ folderPath ]

/-- The lines that list the found files (lines 292-300). -/
def foundLines (prtFiles : List String) : List String :=
  ("Found " ++ toString prtFiles.length ++ " .prt files:") ::
    (prtFiles.map fun file => "  - " ++ displayName file) ++ [""]

/-- The outer `try` block of `ufusr` (lines 267-368). -/
def ufusrTryBlock (h : Host) (s : Run) : Option Exn × Run :=
  match h.GetSession with
  | .error e => (some e, s)
  | .ok _ =>
    match h.ListingWindow with
    | .error e => (some e, s)
    | .ok _ =>
      match h.Open with
      | .error e => (some e, s)
      | .ok _ =>
        let folderPath := h.GetCurrentDirectoryA
        andThen (writeLines h (bannerLines folderPath) s) fun s =>
          let prtFiles := GetPrtFilesInFolder h.FindFirstFileA folderPath
          if prtFiles.isEmpty then writeLines h (noFilesLines folderPath) s
          else
            andThen (writeLines h (foundLines prtFiles) s) fun s =>
              match h.Parts with
              | .error e => (some e, s)
              | .ok _ =>
                andThen (fileLoop h prtFiles s) fun s =>
                  lwWriteLine h "=== Processing completed ===" s

/-- The outer `catch` handler (lines 370-383): the report is attempted and whatever it
throws is swallowed by `catch (...)`. -/
def fatalHandler (h : Host) (e : Exn) (s : Run) : Run :=
  let s :=
    match h.GetSession with
    | .error _ => s
    | .ok _ =>
      match h.ListingWindow with
      | .error _ => s
      | .ok _ => (lwWriteLine h ("Fatal error: " ++ e) s).2
  { s with retcode := 1 }

/-- The state after `*retcode = 0` (line 263): an empty listing window, no part open. -/
def initialRun : Run := { retcode := 0, lines := [], attempted := [], resident := [] }

/-- Model of `ufusr`. -/
def ufusr (h : Host) : Run :=
  match ufusrTryBlock h initialRun with
  | (none, s) => s
  | (some e, s) => fatalHandler h e s

/-! ## Vocabulary of the statements -/

/-- The token `tok` occurs in `s` as a substring. -/
def Occurs (tok s : String) : Prop := tok.data <:+: s.data

instance (tok s : String) : Decidable (Occurs tok s) :=
  inferInstanceAs (Decidable (tok.data <:+: s.data))

/-- The default row: millimeter factors under the name `"Unknown"`. -/
def unknownFactors : UnitFactors :=
  { unitName := "Unknown", lengthFactor := 0.001, areaFactor := 1e-6, volumeFactor := 1e-9 }

/-- The row returned when the lookup throws: millimeter factors under `"Default (mm)"`. -/
def defaultFactors : UnitFactors :=
  { unitName := "Default (mm)", lengthFactor := 0.001, areaFactor := 1e-6,
    volumeFactor := 1e-9 }

/-- The single-body measurement of `body` when it is the request number `k` of the measure
manager: the volume and the area, in display units, when the object is created and both
values can be read. -/
def bodyMeasurement (measureMgr : MeasureManagerH) (k : Nat) (body : BodyPtr) :
    Option (ℚ × ℚ) :=
  match measureMgr.NewMassProperties k [body] with
  | .error _ => none
  | .ok bodyProps =>
    match bodyProps.Volume, bodyProps.SurfaceArea with
    | .ok vol, .ok area => some (vol, area)
    | _, _ => none

/-- The measurements of exactly those bodies whose single-body measurement succeeds, in
body order.  The aggregate request was request 0, so the body at position `i` is
request `i + 1`. -/
def measuredBodies (measureMgr : MeasureManagerH) (bodies : List BodyPtr) : List (ℚ × ℚ) :=
  (bodies.enumFrom 1).filterMap fun p => bodyMeasurement measureMgr p.1 p.2

/-- The aggregate measurement fails: creating the object, reading its volume, or reading
its surface area raises. -/
def AggregateFails (measureMgr : MeasureManagerH) (bodies : List BodyPtr) : Prop :=
  (∃ e, measureMgr.NewMassProperties 0 bodies = .error e) ∨
  (∃ massProps e, measureMgr.NewMassProperties 0 bodies = .ok massProps ∧
    massProps.Volume = .error e) ∨
  (∃ massProps vol e, measureMgr.NewMassProperties 0 bodies = .ok massProps ∧
    massProps.Volume = .ok vol ∧ massProps.SurfaceArea = .error e)

/-- Every volume the measurement kernel of `part` reports is non-negative. -/
def KernelVolumesNonneg (part : Part) : Prop :=
  ∀ measureMgr, part.MeasureManager = .ok measureMgr →
    ∀ k bodies massProps vol, measureMgr.NewMassProperties k bodies = .ok massProps →
      massProps.Volume = .ok vol → 0 ≤ vol

/-! ## Example hosts -/

/-- A body collection that holds `items`. -/
def collectionOf (items : List BodyPtr) : BodyCollectionH :=
  { GetSize := .ok items.length
    GetItem := fun i => .ok (items.getD i none)
    ToArray := .ok items }

/-- A millimeter part that holds `items` and answers `MeasureManager()` with `mm`. -/
def partOf (items : List BodyPtr) (mm : Except Exn MeasureManagerH) : Part :=
  { UnitCollection := lookupOk "MilliMeter"
    Bodies := fun _ => .ok (collectionOf items)
    MeasureManager := mm
    Close := .ok () }

/-- A kernel that measures every request as volume 1000 and area 600. -/
def cubeKernel : MeasureManagerH :=
  { NewMassProperties := fun _ _ => .ok { Volume := .ok 1000, SurfaceArea := .ok 600 } }

/-- A kernel that refuses the aggregate request, measures body 1 (request 1), reads the
volume but not the area of body 2 (request 2), and measures body 3 (request 3). -/
def patchyKernel : MeasureManagerH :=
  { NewMassProperties := fun k _ =>
      if k = 0 then .error "aggregate failed"
      else if k = 2 then .ok { Volume := .ok 500, SurfaceArea := .error "no area" }
      else .ok { Volume := .ok 1000, SurfaceArea := .ok 600 } }

/-- A part without bodies whose measure manager is unusable. -/
def emptyPart : Part := partOf [] (.error "no measure manager")

/-- A part with two bodies and a working kernel. -/
def twoBodyPart : Part := partOf [some 1, some 2] (.ok cubeKernel)

/-- A part with three bodies and the patchy kernel. -/
def patchyPart : Part := partOf [some 1, some 2, some 3] (.ok patchyKernel)

/-- The session and the listing window work: obtaining them, opening the window and every
`WriteLine` return. -/
def WindowWorks (h : Host) : Prop :=
  h.GetSession = .ok () ∧ h.ListingWindow = .ok () ∧ h.Open = .ok () ∧
    ∀ lines text, h.WriteLine lines text = .ok ()

/-- The session and the listing window keep working for the whole run: `WindowWorks`, and
the session hands out its part collection. -/
def HostWorks (h : Host) : Prop := WindowWorks h ∧ h.Parts = .ok ()

/-- The two lines the per-file handler writes for the error `e` (lines 363-364). -/
def failureLines (e : Exn) : List String := ["  Error processing file: " ++ e, ""]

/-- The lines one file contributes to the listing window when the window works: the
announcement, then either the message that the part cannot be opened, or the report of
the error raised while the part was opened, measured or closed, after whatever result
lines were already written. -/
def fileLines (h : Host) (filePath : String) : List String :=
  ("Processing file: " ++ displayName filePath) ::
    match h.OpenBasePart filePath with
    | .error e => failureLines e
    | .ok none => ["  Error: Cannot open part"]
    | .ok (some part) =>
      match CalculateMassProperties part DENSITY_KG_PER_M3 callerVars with
      | (some e, _) => failureLines e
      | (none, v) =>
        resultLines h v ++
          match part.Close with
          | .error e => failureLines e
          | .ok _ => []

/-- The files the scan of the current directory finds. -/
def foundFiles (h : Host) : List String :=
  GetPrtFilesInFolder h.FindFirstFileA h.GetCurrentDirectoryA

/-- A host whose session and listing window always work, with current directory
`C:\parts`, whose `*.prt` search enumerates `entries` and which opens parts by
`openPart`. -/
def quietHost (entries : FindResult) (openPart : String → Except Exn (Option Part)) : Host :=
  { GetSession := .ok ()
    ListingWindow := .ok ()
    Open := .ok ()
    WriteLine := fun _ _ => .ok ()
    GetCurrentDirectoryA := "C:\\parts"
    FindFirstFileA := fun searchPath => if searchPath = "C:\\parts\\*.prt" then entries else none
    Parts := .ok ()
    OpenBasePart := openPart
    to_string := fun q => toString q.num ++ "/" ++ toString q.den }

/-- A part that opens but whose body collection cannot be obtained. -/
def noBodiesPart : Part :=
  { UnitCollection := lookupOk "MilliMeter"
    Bodies := fun _ => .error "body collection unavailable"
    MeasureManager := .ok cubeKernel
    Close := .ok () }

/-- One file `a.prt`; it opens, and retrieving its bodies raises. -/
def leakHost : Host :=
  quietHost (some ({ dwFileAttributes := 0x20, cFileName := "a.prt" }, []))
    (fun _ => .ok (some noBodiesPart))

/-- Three files and a directory: `a.prt` cannot be opened, `b.prt` raises while it is
measured, `c.prt` is measured. -/
def mixedHost : Host :=
  quietHost
    (some ({ dwFileAttributes := 0x20, cFileName := "a.prt" },
      [{ dwFileAttributes := 0x10, cFileName := "old.prt" },
       { dwFileAttributes := 0x20, cFileName := "b.prt" },
       { dwFileAttributes := 0x20, cFileName := "c.prt" }]))
    (fun filePath =>
      if filePath = "C:\\parts\\a.prt" then .ok none
      else if filePath = "C:\\parts\\b.prt" then .ok (some noBodiesPart)
      else .ok (some twoBodyPart))

/-- No file matches. -/
def noFilesHost : Host := quietHost none (fun _ => .ok none)

/-- No file matches, and the listing window accepts four lines and then fails. -/
def fullWindowHost : Host :=
  { noFilesHost with
    WriteLine := fun lines _ => if lines.length < 4 then .ok () else .error "window closed" }

/-- The directory flag of an enumerated entry: `dwFileAttributes & FILE_ATTRIBUTE_DIRECTORY`
is not zero. -/
def isDirectory (findData : WIN32_FIND_DATAA) : Bool :=
  findData.dwFileAttributes &&& FILE_ATTRIBUTE_DIRECTORY != 0

/-- The sequence of entries the platform enumerates for the pattern that first succeeds:
"*.prt", else "*.PRT"; empty when neither search finds a first entry. -/
def enumerated (FindFirstFileA : String → FindResult) (folderPath : String) :
    List WIN32_FIND_DATAA :=
  match FindFirstFileA (folderPath ++ "\\*.prt") with
  | some (first, rest) => first :: rest
  | none =>
    match FindFirstFileA (folderPath ++ "\\*.PRT") with
    | some (first, rest) => first :: rest
    | none => []

/-- The path under which an entry is returned: folder, a backslash, the entry name. -/
def pathIn (folderPath : String) (findData : WIN32_FIND_DATAA) : String :=
  folderPath ++ "\\" ++ findData.cFileName

/-- A search that only answers the upper-case pattern in `D:\cad`: a directory `sub.PRT`
between the files `X.PRT` and `Y.PRT`. -/
def upperCaseSearch : String → FindResult := fun searchPath =>
  if searchPath = "D:\\cad\\*.PRT" then
    some ({ dwFileAttributes := 0x20, cFileName := "X.PRT" },
      [{ dwFileAttributes := 0x10, cFileName := "sub.PRT" },
       { dwFileAttributes := 0x80, cFileName := "Y.PRT" }])
  else none

/-! ## Substring facts -/

theorem findFrom_isSome_iff (pat s : List Char) (i : Nat) :
    (findFrom pat s i).isSome = true ↔ pat <:+: s := by
  induction s generalizing i with
  | nil =>
    cases pat <;> simp [findFrom]
  | cons c cs ih =>
    unfold findFrom
    by_cases h : pat.isPrefixOf (c :: cs) = true
    · simp only [h, if_true, Option.isSome_some, true_iff]
      exact (List.isPrefixOf_iff_prefix.mp h).isInfix
    · simp only [h, Bool.false_eq_true, if_false, ih]
      rw [List.infix_cons_iff]
      constructor
      · exact Or.inr
      · rintro (hp | hi)
        · exact absurd (List.isPrefixOf_iff_prefix.mpr hp) h
        · exact hi

theorem found_iff (s pat : String) : found s pat = true ↔ pat.data <:+: s.data := by
  unfold found find
  exact findFrom_isSome_iff _ _ _

theorem found_Meter_of_MilliMeter (s : String) (h : found s "MilliMeter" = true) :
    found s "Meter" = true := by
  rw [found_iff] at h ⊢
  refine List.IsInfix.trans ?_ h
  exact ⟨"Milli".data, [], by decide⟩


/-! ## The unit resolver -/

theorem GetDisplayUnitFactors_of_yields (unitCollection : Except Exn UnitCollectionH)
    (journalId : String) (h : LookupYields unitCollection journalId) :
    GetDisplayUnitFactors unitCollection =
      if found journalId "MilliMeter" then millimeterFactors
      else if found journalId "Meter" then meterFactors
      else if found journalId "Inch" then inchFactors
      else if found journalId "Foot" then footFactors
      else unknownFactors := by
  obtain ⟨uc, lengthUnit, rfl, h2, h3⟩ := h
  simp only [GetDisplayUnitFactors, unitTryBlock, h2, h3]
  split_ifs <;>
    norm_num [millimeterFactors, meterFactors, inchFactors, footFactors, unknownFactors]

theorem GetDisplayUnitFactors_of_raises (unitCollection : Except Exn UnitCollectionH)
    (h : LookupRaises unitCollection) :
    GetDisplayUnitFactors unitCollection = defaultFactors := by
  rcases h with ⟨e, rfl⟩ | ⟨uc, e, rfl, h2⟩ | ⟨uc, lengthUnit, e, rfl, h2, h3⟩
  · simp [GetDisplayUnitFactors, unitTryBlock, defaultFactors]
  · simp [GetDisplayUnitFactors, unitTryBlock, h2, defaultFactors]
  · simp [GetDisplayUnitFactors, unitTryBlock, h2, h3, defaultFactors]

theorem lookupOk_yields (journalId : String) : LookupYields (lookupOk journalId) journalId :=
  ⟨_, _, rfl, rfl, rfl⟩

theorem not_found_iff (s pat : String) : found s pat = false ↔ ¬ Occurs pat s := by
  unfold Occurs
  rw [← found_iff, Bool.not_eq_true]

theorem factors_by_first_token (unitCollection : Except Exn UnitCollectionH)
    (journalId : String) (h : LookupYields unitCollection journalId) :
    (Occurs "MilliMeter" journalId →
      GetDisplayUnitFactors unitCollection = millimeterFactors) ∧
    (¬ Occurs "MilliMeter" journalId → Occurs "Meter" journalId →
      GetDisplayUnitFactors unitCollection = meterFactors) ∧
    (¬ Occurs "MilliMeter" journalId → ¬ Occurs "Meter" journalId →
      Occurs "Inch" journalId → GetDisplayUnitFactors unitCollection = inchFactors) ∧
    (¬ Occurs "MilliMeter" journalId → ¬ Occurs "Meter" journalId →
      ¬ Occurs "Inch" journalId → Occurs "Foot" journalId →
      GetDisplayUnitFactors unitCollection = footFactors) ∧
    (¬ Occurs "MilliMeter" journalId → ¬ Occurs "Meter" journalId →
      ¬ Occurs "Inch" journalId → ¬ Occurs "Foot" journalId →
      GetDisplayUnitFactors unitCollection = unknownFactors) := by
  rw [GetDisplayUnitFactors_of_yields unitCollection journalId h]
  have neg : ∀ tok : String, ¬ Occurs tok journalId → ¬ (found journalId tok = true) := by
    intro tok hn
    rw [(not_found_iff _ _).mpr hn]
    simp
  have pos : ∀ tok : String, Occurs tok journalId → found journalId tok = true :=
    fun tok hp => (found_iff _ _).mpr hp
  refine ⟨?_, ?_, ?_, ?_, ?_⟩
  · intro h1
    rw [if_pos (pos _ h1)]
  · intro h1 h2
    rw [if_neg (neg _ h1), if_pos (pos _ h2)]
  · intro h1 h2 h3
    rw [if_neg (neg _ h1), if_neg (neg _ h2), if_pos (pos _ h3)]
  · intro h1 h2 h3 h4
    rw [if_neg (neg _ h1), if_neg (neg _ h2), if_neg (neg _ h3), if_pos (pos _ h4)]
  · intro h1 h2 h3 h4
    rw [if_neg (neg _ h1), if_neg (neg _ h2), if_neg (neg _ h3), if_neg (neg _ h4)]

theorem lookup_raises_or_yields (unitCollection : Except Exn UnitCollectionH) :
    LookupRaises unitCollection ∨ ∃ journalId, LookupYields unitCollection journalId := by
  cases unitCollection with
  | error e => exact Or.inl (Or.inl ⟨e, rfl⟩)
  | ok uc =>
    cases h2 : uc.GetBase "Length" with
    | error e => exact Or.inl (Or.inr (Or.inl ⟨uc, e, rfl, h2⟩))
    | ok lengthUnit =>
      cases h3 : lengthUnit.JournalIdentifier with
      | error e => exact Or.inl (Or.inr (Or.inr ⟨uc, lengthUnit, e, rfl, h2, h3⟩))
      | ok journalId => exact Or.inr ⟨journalId, uc, lengthUnit, rfl, h2, h3⟩

theorem Occurs_Meter_of_MilliMeter (s : String) (h : Occurs "MilliMeter" s) :
    Occurs "Meter" s :=
  (found_iff _ _).mp (found_Meter_of_MilliMeter s ((found_iff _ _).mpr h))

/-- C1: after a successful length-unit lookup the identifier is classified by the first of
"MilliMeter", "Meter", "Inch", "Foot" that occurs in it, and the factors of that unit are
returned; an identifier that contains "MilliMeter" also contains "Meter" and is still
classified as millimeter (name "Millimeter", volume factor 1e-9), not as meter. -/
theorem unit_classified_by_first_token (unitCollection : Except Exn UnitCollectionH)
    (journalId : String) (h : LookupYields unitCollection journalId) :
    (Occurs "MilliMeter" journalId →
      GetDisplayUnitFactors unitCollection = millimeterFactors) ∧
    (¬ Occurs "MilliMeter" journalId → Occurs "Meter" journalId →
      GetDisplayUnitFactors unitCollection = meterFactors) ∧
    (¬ Occurs "MilliMeter" journalId → ¬ Occurs "Meter" journalId →
      Occurs "Inch" journalId → GetDisplayUnitFactors unitCollection = inchFactors) ∧
    (¬ Occurs "MilliMeter" journalId → ¬ Occurs "Meter" journalId →
      ¬ Occurs "Inch" journalId → Occurs "Foot" journalId →
      GetDisplayUnitFactors unitCollection = footFactors) ∧
    (Occurs "MilliMeter" journalId →
      Occurs "Meter" journalId ∧
      (GetDisplayUnitFactors unitCollection).unitName = "Millimeter" ∧
      (GetDisplayUnitFactors unitCollection).volumeFactor = 1e-9 ∧
      GetDisplayUnitFactors unitCollection ≠ meterFactors) := by
  obtain ⟨h1, h2, h3, h4, -⟩ := factors_by_first_token unitCollection journalId h
  refine ⟨h1, h2, h3, h4, ?_⟩
  intro hmm
  rw [h1 hmm]
  refine ⟨Occurs_Meter_of_MilliMeter _ hmm, rfl, rfl, ?_⟩
  intro hEq
  have := congrArg UnitFactors.unitName hEq
  simp [millimeterFactors, meterFactors] at this

theorem unit_classified_by_first_token_witness :
    LookupYields (lookupOk "MilliMeter") "MilliMeter" ∧
    Occurs "MilliMeter" "MilliMeter" ∧
    GetDisplayUnitFactors (lookupOk "MilliMeter") = millimeterFactors :=
  ⟨lookupOk_yields _, List.infix_refl _,
    (unit_classified_by_first_token (lookupOk "MilliMeter") "MilliMeter"
      (lookupOk_yields _)).1 (List.infix_refl _)⟩

theorem factors_of_Inch : GetDisplayUnitFactors (lookupOk "Inch") = inchFactors :=
  (factors_by_first_token (lookupOk "Inch") "Inch" (lookupOk_yields _)).2.2.1
    ((not_found_iff _ _).mp (by decide)) ((not_found_iff _ _).mp (by decide))
    (List.infix_refl _)

/-- C2, as stated, fails for the inch: the volume factor 1.6387e-5 that
`GetDisplayUnitFactors` returns is not the cube of the length factor 0.0254. -/
theorem inch_volume_factor_ne_cube :
    (GetDisplayUnitFactors (lookupOk "Inch")).volumeFactor ≠
      (GetDisplayUnitFactors (lookupOk "Inch")).lengthFactor ^ 3 := by
  rw [factors_of_Inch]
  norm_num [inchFactors]

/-- C2, amended: for millimeter and meter the volume factor is exactly the cube of the
length factor (1e-9 and 1); for inch and foot it is the decimal 1.6387e-5, respectively
0.0283168, which is the cube of 0.0254, respectively 0.3048, rounded to five, respectively
six, significant digits (off by at most 5e-10, respectively 5e-8). -/
theorem volume_factor_cube_or_rounded (unitCollection : Except Exn UnitCollectionH)
    (journalId : String) (h : LookupYields unitCollection journalId) :
    (Occurs "MilliMeter" journalId →
      (GetDisplayUnitFactors unitCollection).lengthFactor = 0.001 ∧
      (GetDisplayUnitFactors unitCollection).volumeFactor = 1e-9 ∧
      (GetDisplayUnitFactors unitCollection).volumeFactor =
        (GetDisplayUnitFactors unitCollection).lengthFactor ^ 3) ∧
    (¬ Occurs "MilliMeter" journalId → Occurs "Meter" journalId →
      (GetDisplayUnitFactors unitCollection).lengthFactor = 1 ∧
      (GetDisplayUnitFactors unitCollection).volumeFactor = 1 ∧
      (GetDisplayUnitFactors unitCollection).volumeFactor =
        (GetDisplayUnitFactors unitCollection).lengthFactor ^ 3) ∧
    (¬ Occurs "MilliMeter" journalId → ¬ Occurs "Meter" journalId →
      Occurs "Inch" journalId →
      (GetDisplayUnitFactors unitCollection).lengthFactor = 0.0254 ∧
      (GetDisplayUnitFactors unitCollection).volumeFactor = 1.6387e-5 ∧
      |(GetDisplayUnitFactors unitCollection).volumeFactor -
        (GetDisplayUnitFactors unitCollection).lengthFactor ^ 3| ≤ 5e-10) ∧
    (¬ Occurs "MilliMeter" journalId → ¬ Occurs "Meter" journalId →
      ¬ Occurs "Inch" journalId → Occurs "Foot" journalId →
      (GetDisplayUnitFactors unitCollection).lengthFactor = 0.3048 ∧
      (GetDisplayUnitFactors unitCollection).volumeFactor = 0.0283168 ∧
      |(GetDisplayUnitFactors unitCollection).volumeFactor -
        (GetDisplayUnitFactors unitCollection).lengthFactor ^ 3| ≤ 5e-8) := by
  obtain ⟨h1, h2, h3, h4, -⟩ := factors_by_first_token unitCollection journalId h
  refine ⟨fun a => ?_, fun a b => ?_, fun a b c => ?_, fun a b c d => ?_⟩
  · rw [h1 a]
    norm_num [millimeterFactors]
  · rw [h2 a b]
    norm_num [meterFactors]
  · rw [h3 a b c]
    refine ⟨by norm_num [inchFactors], by norm_num [inchFactors], ?_⟩
    rw [abs_le]
    constructor <;> norm_num [inchFactors]
  · rw [h4 a b c d]
    refine ⟨by norm_num [footFactors], by norm_num [footFactors], ?_⟩
    rw [abs_le]
    constructor <;> norm_num [footFactors]

theorem volume_factor_cube_or_rounded_witness :
    LookupYields (lookupOk "Foot") "Foot" ∧
    |(GetDisplayUnitFactors (lookupOk "Foot")).volumeFactor -
      (GetDisplayUnitFactors (lookupOk "Foot")).lengthFactor ^ 3| ≤ 5e-8 :=
  ⟨lookupOk_yields _,
    ((volume_factor_cube_or_rounded (lookupOk "Foot") "Foot" (lookupOk_yields _)).2.2.2
      ((not_found_iff _ _).mp (by decide)) ((not_found_iff _ _).mp (by decide))
      ((not_found_iff _ _).mp (by decide)) (List.infix_refl _)).2.2⟩

/-- C7: `GetDisplayUnitFactors` always returns a row.  When the lookup raises, the row is
(0.001, 1e-6, 1e-9) under the name "Default (mm)"; when the lookup yields an identifier
that contains none of the four tokens, it is (0.001, 1e-6, 1e-9) under the name
"Unknown".  Every behaviour of the host is one of: the lookup raises, or it yields an
identifier. -/
theorem unit_fallback_is_millimeter (unitCollection : Except Exn UnitCollectionH) :
    (LookupRaises unitCollection →
      GetDisplayUnitFactors unitCollection =
        { unitName := "Default (mm)", lengthFactor := 0.001, areaFactor := 1e-6,
          volumeFactor := 1e-9 }) ∧
    (∀ journalId, LookupYields unitCollection journalId →
      ¬ Occurs "MilliMeter" journalId → ¬ Occurs "Meter" journalId →
      ¬ Occurs "Inch" journalId → ¬ Occurs "Foot" journalId →
      GetDisplayUnitFactors unitCollection =
        { unitName := "Unknown", lengthFactor := 0.001, areaFactor := 1e-6,
          volumeFactor := 1e-9 }) ∧
    (LookupRaises unitCollection ∨ ∃ journalId, LookupYields unitCollection journalId) :=
  ⟨fun h => GetDisplayUnitFactors_of_raises unitCollection h,
    fun journalId h => (factors_by_first_token unitCollection journalId h).2.2.2.2,
    lookup_raises_or_yields unitCollection⟩

theorem unit_fallback_is_millimeter_witness :
    (LookupRaises (Except.error "no unit collection") ∧
      GetDisplayUnitFactors (Except.error "no unit collection") =
        { unitName := "Default (mm)", lengthFactor := 0.001, areaFactor := 1e-6,
          volumeFactor := 1e-9 }) ∧
    (LookupYields (lookupOk "Micron") "Micron" ∧
      GetDisplayUnitFactors (lookupOk "Micron") =
        { unitName := "Unknown", lengthFactor := 0.001, areaFactor := 1e-6,
          volumeFactor := 1e-9 }) :=
  ⟨⟨Or.inl ⟨_, rfl⟩,
      (unit_fallback_is_millimeter (Except.error "no unit collection")).1 (Or.inl ⟨_, rfl⟩)⟩,
    ⟨lookupOk_yields _,
      (unit_fallback_is_millimeter (lookupOk "Micron")).2.1 "Micron" (lookupOk_yields _)
        ((not_found_iff _ _).mp (by decide)) ((not_found_iff _ _).mp (by decide))
        ((not_found_iff _ _).mp (by decide)) ((not_found_iff _ _).mp (by decide))⟩⟩

/-! ## The mass-properties evaluator -/

theorem volumeFactor_pos (unitCollection : Except Exn UnitCollectionH) :
    0 < (GetDisplayUnitFactors unitCollection).volumeFactor := by
  rcases lookup_raises_or_yields unitCollection with h | ⟨journalId, h⟩
  · rw [GetDisplayUnitFactors_of_raises _ h]
    norm_num [defaultFactors]
  · rw [GetDisplayUnitFactors_of_yields _ _ h]
    split_ifs <;>
      norm_num [millimeterFactors, meterFactors, inchFactors, footFactors, unknownFactors]

theorem perBodyLoop_spec (measureMgr : MeasureManagerH) (factors : UnitFactors)
    (bodies : List BodyPtr) : ∀ (k : Nat) (v : CalcVars),
    (perBodyLoop measureMgr factors k bodies v).volumeM3 =
        v.volumeM3 + (((bodies.enumFrom k).filterMap
          fun p => bodyMeasurement measureMgr p.1 p.2).map
            fun m => m.1 * factors.volumeFactor).sum ∧
    (perBodyLoop measureMgr factors k bodies v).totalSurfaceAreaM2 =
        v.totalSurfaceAreaM2 + (((bodies.enumFrom k).filterMap
          fun p => bodyMeasurement measureMgr p.1 p.2).map
            fun m => m.2 * factors.areaFactor).sum ∧
    (perBodyLoop measureMgr factors k bodies v).unitName = v.unitName := by
  induction bodies with
  | nil => intro k v; simp [perBodyLoop]
  | cons body rest ih =>
    intro k v
    unfold perBodyLoop
    simp only [List.enumFrom_cons]
    cases h1 : measureMgr.NewMassProperties k [body] with
    | error e =>
      have hb : bodyMeasurement measureMgr k body = none := by simp [bodyMeasurement, h1]
      simp only [List.filterMap_cons, hb]
      exact ih (k + 1) _
    | ok bodyProps =>
      cases h2 : bodyProps.Volume with
      | error e =>
        have hb : bodyMeasurement measureMgr k body = none := by
          simp [bodyMeasurement, h1, h2]
        simp only [List.filterMap_cons, hb, h2]
        exact ih (k + 1) _
      | ok vol =>
        cases h3 : bodyProps.SurfaceArea with
        | error e =>
          have hb : bodyMeasurement measureMgr k body = none := by
            simp [bodyMeasurement, h1, h2, h3]
          simp only [List.filterMap_cons, hb, h2, h3]
          exact ih (k + 1) _
        | ok area =>
          have hb : bodyMeasurement measureMgr k body = some (vol, area) := by
            simp [bodyMeasurement, h1, h2, h3]
          simp only [List.filterMap_cons, hb, h2, h3, List.map_cons, List.sum_cons]
          obtain ⟨hv, ha, hn⟩ := ih (k + 1)
            { totalMassKg := v.totalMassKg,
              totalSurfaceAreaM2 := v.totalSurfaceAreaM2 + area * factors.areaFactor,
              unitName := v.unitName,
              volumeM3 := v.volumeM3 + vol * factors.volumeFactor,
              calls := v.calls ++ [KernelCall.newMassProperties [body]] ++
                [KernelCall.volume] ++ [KernelCall.surfaceArea] ++ [KernelCall.release] }
          refine ⟨?_, ?_, ?_⟩
          · rw [hv]; ring
          · rw [ha]; ring
          · rw [hn]

theorem bodyMeasurement_some (measureMgr : MeasureManagerH) (k : Nat) (body : BodyPtr)
    (vol area : ℚ) (h : bodyMeasurement measureMgr k body = some (vol, area)) :
    ∃ bodyProps, measureMgr.NewMassProperties k [body] = .ok bodyProps ∧
      bodyProps.Volume = .ok vol ∧ bodyProps.SurfaceArea = .ok area := by
  unfold bodyMeasurement at h
  cases h1 : measureMgr.NewMassProperties k [body] with
  | error e => simp [h1] at h
  | ok bodyProps =>
    cases h2 : bodyProps.Volume with
    | error e => simp [h1, h2] at h
    | ok vol2 =>
      cases h3 : bodyProps.SurfaceArea with
      | error e => simp [h1, h2, h3] at h
      | ok area2 =>
        simp [h1, h2, h3] at h
        exact ⟨bodyProps, rfl, by rw [h2, h.1], by rw [h3, h.2]⟩

theorem aggregate_fails_or_succeeds (measureMgr : MeasureManagerH) (bodies : List BodyPtr) :
    AggregateFails measureMgr bodies ∨
    ∃ massProps vol area, measureMgr.NewMassProperties 0 bodies = .ok massProps ∧
      massProps.Volume = .ok vol ∧ massProps.SurfaceArea = .ok area := by
  cases h1 : measureMgr.NewMassProperties 0 bodies with
  | error e => exact Or.inl (Or.inl ⟨e, h1⟩)
  | ok massProps =>
    cases h2 : massProps.Volume with
    | error e => exact Or.inl (Or.inr (Or.inl ⟨massProps, e, h1, h2⟩))
    | ok vol =>
      cases h3 : massProps.SurfaceArea with
      | error e => exact Or.inl (Or.inr (Or.inr ⟨massProps, vol, e, h1, h2, h3⟩))
      | ok area => exact Or.inr ⟨massProps, vol, area, rfl, h2, h3⟩

theorem aggregateTryBlock_ok (measureMgr : MeasureManagerH) (bodies : List BodyPtr)
    (factors : UnitFactors) (d : ℚ) (v : CalcVars) (massProps : MassPropertiesH)
    (vol area : ℚ) (h1 : measureMgr.NewMassProperties 0 bodies = .ok massProps)
    (h2 : massProps.Volume = .ok vol) (h3 : massProps.SurfaceArea = .ok area) :
    aggregateTryBlock measureMgr bodies factors d v =
      (none, { totalMassKg := vol * factors.volumeFactor * d,
               totalSurfaceAreaM2 := area * factors.areaFactor,
               unitName := v.unitName,
               volumeM3 := vol * factors.volumeFactor,
               calls := v.calls ++ [KernelCall.newMassProperties bodies, KernelCall.volume,
                 KernelCall.surfaceArea, KernelCall.release] }) := by
  simp [aggregateTryBlock, h1, h2, h3]

theorem aggregateTryBlock_fails (measureMgr : MeasureManagerH) (bodies : List BodyPtr)
    (factors : UnitFactors) (d : ℚ) (v : CalcVars)
    (h : AggregateFails measureMgr bodies) :
    ∃ e w, aggregateTryBlock measureMgr bodies factors d v = (some e, w) ∧
      w.unitName = v.unitName := by
  rcases h with ⟨e, h1⟩ | ⟨massProps, e, h1, h2⟩ | ⟨massProps, vol, e, h1, h2, h3⟩
  · simp only [aggregateTryBlock, h1]
    exact ⟨e, _, rfl, rfl⟩
  · simp only [aggregateTryBlock, h1, h2]
    exact ⟨e, _, rfl, rfl⟩
  · simp only [aggregateTryBlock, h1, h2, h3]
    exact ⟨e, _, rfl, rfl⟩

/-- The empty-list path of `CalculateMassProperties`. -/
theorem calc_empty (part : Part) (d : ℚ) (v : CalcVars) (h : GetAllBodies part = .ok []) :
    CalculateMassProperties part d v =
      (none, { totalMassKg := 0, totalSurfaceAreaM2 := 0,
               unitName := (GetDisplayUnitFactors part.UnitCollection).unitName,
               volumeM3 := 0, calls := v.calls }) := by
  simp [CalculateMassProperties, h]
  norm_num

/-- The aggregate path of `CalculateMassProperties`. -/
theorem calc_aggregate (part : Part) (d : ℚ) (v : CalcVars) (bodies : List BodyPtr)
    (measureMgr : MeasureManagerH) (massProps : MassPropertiesH) (vol area : ℚ)
    (hb : GetAllBodies part = .ok bodies) (hne : bodies ≠ [])
    (hm : part.MeasureManager = .ok measureMgr)
    (h1 : measureMgr.NewMassProperties 0 bodies = .ok massProps)
    (h2 : massProps.Volume = .ok vol) (h3 : massProps.SurfaceArea = .ok area) :
    CalculateMassProperties part d v =
      (none, { totalMassKg := vol * (GetDisplayUnitFactors part.UnitCollection).volumeFactor * d,
               totalSurfaceAreaM2 :=
                 area * (GetDisplayUnitFactors part.UnitCollection).areaFactor,
               unitName := (GetDisplayUnitFactors part.UnitCollection).unitName,
               volumeM3 := vol * (GetDisplayUnitFactors part.UnitCollection).volumeFactor,
               calls := v.calls ++ [KernelCall.measureManager,
                 KernelCall.newMassProperties bodies, KernelCall.volume,
                 KernelCall.surfaceArea, KernelCall.release] }) := by
  simp [CalculateMassProperties, hb, hne, hm,
    aggregateTryBlock_ok measureMgr bodies _ d _ massProps vol area h1 h2 h3]

/-- The per-body path of `CalculateMassProperties`. -/
theorem calc_fallback (part : Part) (d : ℚ) (v : CalcVars) (bodies : List BodyPtr)
    (measureMgr : MeasureManagerH)
    (hb : GetAllBodies part = .ok bodies) (hne : bodies ≠ [])
    (hm : part.MeasureManager = .ok measureMgr)
    (hf : AggregateFails measureMgr bodies) :
    (CalculateMassProperties part d v).1 = none ∧
    (CalculateMassProperties part d v).2.volumeM3 =
      ((measuredBodies measureMgr bodies).map fun m =>
        m.1 * (GetDisplayUnitFactors part.UnitCollection).volumeFactor).sum ∧
    (CalculateMassProperties part d v).2.totalSurfaceAreaM2 =
      ((measuredBodies measureMgr bodies).map fun m =>
        m.2 * (GetDisplayUnitFactors part.UnitCollection).areaFactor).sum ∧
    (CalculateMassProperties part d v).2.totalMassKg =
      (CalculateMassProperties part d v).2.volumeM3 * d ∧
    (CalculateMassProperties part d v).2.unitName =
      (GetDisplayUnitFactors part.UnitCollection).unitName := by
  obtain ⟨e, w, hw, hname⟩ := aggregateTryBlock_fails measureMgr bodies
    (GetDisplayUnitFactors part.UnitCollection) d
    { totalMassKg := 0.0, totalSurfaceAreaM2 := 0.0,
      unitName := (GetDisplayUnitFactors part.UnitCollection).unitName, volumeM3 := 0.0,
      calls := v.calls ++ [KernelCall.measureManager] } hf
  obtain ⟨hv, ha, hn⟩ := perBodyLoop_spec measureMgr
    (GetDisplayUnitFactors part.UnitCollection) bodies 1
    { totalMassKg := 0.0, totalSurfaceAreaM2 := 0.0, unitName := w.unitName,
      volumeM3 := 0.0, calls := w.calls }
  have hne2 : bodies.isEmpty = false := by
    cases bodies with
    | nil => exact absurd rfl hne
    | cons b bs => rfl
  simp only [CalculateMassProperties, hb, hne2, hm, hw, Bool.false_eq_true, if_false]
  refine ⟨trivial, ?_, ?_, trivial, ?_⟩
  · rw [hv]
    simp [measuredBodies]
    norm_num
  · rw [ha]
    simp [measuredBodies]
    norm_num
  · rw [hn, hname]

theorem measuredBodies_volume_nonneg (part : Part) (measureMgr : MeasureManagerH)
    (hm : part.MeasureManager = .ok measureMgr) (hk : KernelVolumesNonneg part)
    (bodies : List BodyPtr) (m : ℚ × ℚ) (h : m ∈ measuredBodies measureMgr bodies) :
    0 ≤ m.1 := by
  unfold measuredBodies at h
  rw [List.mem_filterMap] at h
  obtain ⟨p, -, hp⟩ := h
  obtain ⟨bodyProps, h1, h2, -⟩ := bodyMeasurement_some measureMgr p.1 p.2 m.1 m.2 hp
  exact hk measureMgr hm p.1 [p.2] bodyProps m.1 h1 h2

theorem GetAllBodies_partOf_nil (mm : Except Exn MeasureManagerH) :
    GetAllBodies (partOf [] mm) = .ok [] := rfl

theorem GetAllBodies_twoBodyPart : GetAllBodies twoBodyPart = .ok [some 1, some 2] := rfl

theorem GetAllBodies_patchyPart :
    GetAllBodies patchyPart = .ok [some 1, some 2, some 3] := rfl

/-- C3: whenever `CalculateMassProperties`, called with the density constant, returns
normally, the mass it reports is the reported volume times 7850, whatever the host did
(no bodies, aggregate measured, or per-body fallback with any mix of failures); and the
reported volume is non-negative when every volume the kernel reports is. -/
theorem mass_is_volume_times_density (part : Part) (v : CalcVars)
    (h : (CalculateMassProperties part DENSITY_KG_PER_M3 v).1 = none) :
    (CalculateMassProperties part DENSITY_KG_PER_M3 v).2.totalMassKg =
      (CalculateMassProperties part DENSITY_KG_PER_M3 v).2.volumeM3 * 7850 ∧
    (KernelVolumesNonneg part →
      0 ≤ (CalculateMassProperties part DENSITY_KG_PER_M3 v).2.volumeM3) := by
  have hd : DENSITY_KG_PER_M3 = 7850 := by norm_num [DENSITY_KG_PER_M3]
  cases hb : GetAllBodies part with
  | error e => simp [CalculateMassProperties, hb] at h
  | ok bodies =>
    by_cases hne : bodies = []
    · subst hne
      rw [calc_empty part _ v hb]
      simp
    · cases hm : part.MeasureManager with
      | error e =>
        have hne2 : bodies.isEmpty = false := by
          cases bodies with
          | nil => exact absurd rfl hne
          | cons b bs => rfl
        simp [CalculateMassProperties, hb, hne2, hm] at h
      | ok measureMgr =>
        rcases aggregate_fails_or_succeeds measureMgr bodies with
          hf | ⟨massProps, vol, area, h1, h2, h3⟩
        · obtain ⟨-, hv, -, hmass, -⟩ :=
            calc_fallback part DENSITY_KG_PER_M3 v bodies measureMgr hb hne hm hf
          refine ⟨by rw [hmass, hd], fun hk => ?_⟩
          rw [hv]
          apply List.sum_nonneg
          intro x hx
          rw [List.mem_map] at hx
          obtain ⟨m, hmem, rfl⟩ := hx
          exact mul_nonneg (measuredBodies_volume_nonneg part measureMgr hm hk bodies m hmem)
            (le_of_lt (volumeFactor_pos _))
        · rw [calc_aggregate part _ v bodies measureMgr massProps vol area hb hne hm h1 h2 h3]
          refine ⟨by simp [hd], fun hk => ?_⟩
          exact mul_nonneg (hk measureMgr hm 0 bodies massProps vol h1 h2)
            (le_of_lt (volumeFactor_pos _))

theorem mass_is_volume_times_density_witness :
    (CalculateMassProperties patchyPart DENSITY_KG_PER_M3 callerVars).1 = none ∧
    (CalculateMassProperties patchyPart DENSITY_KG_PER_M3 callerVars).2.totalMassKg =
      (CalculateMassProperties patchyPart DENSITY_KG_PER_M3 callerVars).2.volumeM3 * 7850 :=
  ⟨(calc_fallback patchyPart DENSITY_KG_PER_M3 callerVars _ patchyKernel
      GetAllBodies_patchyPart (by simp) rfl (Or.inl ⟨_, rfl⟩)).1,
    (mass_is_volume_times_density patchyPart callerVars
      (calc_fallback patchyPart DENSITY_KG_PER_M3 callerVars _ patchyKernel
        GetAllBodies_patchyPart (by simp) rfl (Or.inl ⟨_, rfl⟩)).1).1⟩

/-- C4: for a part with a non-empty body list whose aggregate measurement succeeds with
volume `vol` and area `area`, `CalculateMassProperties` returns normally with
volumeM3 = vol * volumeFactor, totalSurfaceAreaM2 = area * areaFactor and
totalMassKg = vol * volumeFactor * density, the factors being those of
`GetDisplayUnitFactors` for the part; the only measurement requested from the kernel is
the one over the whole body list. -/
theorem aggregate_measurement_converted (part : Part) (d : ℚ) (v : CalcVars)
    (bodies : List BodyPtr) (measureMgr : MeasureManagerH) (massProps : MassPropertiesH)
    (vol area : ℚ)
    (hb : GetAllBodies part = .ok bodies) (hne : bodies ≠ [])
    (hm : part.MeasureManager = .ok measureMgr)
    (h1 : measureMgr.NewMassProperties 0 bodies = .ok massProps)
    (h2 : massProps.Volume = .ok vol) (h3 : massProps.SurfaceArea = .ok area) :
    (CalculateMassProperties part d v).1 = none ∧
    (CalculateMassProperties part d v).2.volumeM3 =
      vol * (GetDisplayUnitFactors part.UnitCollection).volumeFactor ∧
    (CalculateMassProperties part d v).2.totalSurfaceAreaM2 =
      area * (GetDisplayUnitFactors part.UnitCollection).areaFactor ∧
    (CalculateMassProperties part d v).2.totalMassKg =
      vol * (GetDisplayUnitFactors part.UnitCollection).volumeFactor * d ∧
    (CalculateMassProperties part d v).2.calls =
      v.calls ++ [KernelCall.measureManager, KernelCall.newMassProperties bodies,
        KernelCall.volume, KernelCall.surfaceArea, KernelCall.release] := by
  rw [calc_aggregate part d v bodies measureMgr massProps vol area hb hne hm h1 h2 h3]
  exact ⟨rfl, rfl, rfl, rfl, rfl⟩

theorem aggregate_measurement_converted_witness :
    (GetAllBodies twoBodyPart = .ok [some 1, some 2] ∧
      twoBodyPart.MeasureManager = .ok cubeKernel) ∧
    (CalculateMassProperties twoBodyPart DENSITY_KG_PER_M3 callerVars).1 = none ∧
    (CalculateMassProperties twoBodyPart DENSITY_KG_PER_M3 callerVars).2.volumeM3 =
      1000 * (GetDisplayUnitFactors twoBodyPart.UnitCollection).volumeFactor :=
  ⟨⟨GetAllBodies_twoBodyPart, rfl⟩,
    (aggregate_measurement_converted twoBodyPart DENSITY_KG_PER_M3 callerVars
      [some 1, some 2] cubeKernel _ 1000 600 GetAllBodies_twoBodyPart (by simp) rfl rfl
      rfl rfl).1,
    (aggregate_measurement_converted twoBodyPart DENSITY_KG_PER_M3 callerVars
      [some 1, some 2] cubeKernel _ 1000 600 GetAllBodies_twoBodyPart (by simp) rfl rfl
      rfl rfl).2.1⟩

/-- C5: for a non-empty body list whose aggregate measurement fails (creating the object,
reading its volume or reading its area raises), `CalculateMassProperties` returns
normally; volumeM3 is the sum of bodyVolume * volumeFactor over exactly the bodies whose
single-body measurement succeeds, totalSurfaceAreaM2 the sum of bodyArea * areaFactor over
the same bodies, and totalMassKg = volumeM3 * density.  A body whose measurement fails adds
nothing, and nothing of the failed aggregate attempt is left in the outputs. -/
theorem fallback_sums_measured_bodies (part : Part) (d : ℚ) (v : CalcVars)
    (bodies : List BodyPtr) (measureMgr : MeasureManagerH)
    (hb : GetAllBodies part = .ok bodies) (hne : bodies ≠ [])
    (hm : part.MeasureManager = .ok measureMgr)
    (hf : AggregateFails measureMgr bodies) :
    (CalculateMassProperties part d v).1 = none ∧
    (CalculateMassProperties part d v).2.volumeM3 =
      ((measuredBodies measureMgr bodies).map fun m =>
        m.1 * (GetDisplayUnitFactors part.UnitCollection).volumeFactor).sum ∧
    (CalculateMassProperties part d v).2.totalSurfaceAreaM2 =
      ((measuredBodies measureMgr bodies).map fun m =>
        m.2 * (GetDisplayUnitFactors part.UnitCollection).areaFactor).sum ∧
    (CalculateMassProperties part d v).2.totalMassKg =
      (CalculateMassProperties part d v).2.volumeM3 * d := by
  obtain ⟨h0, hv, ha, hmass, -⟩ := calc_fallback part d v bodies measureMgr hb hne hm hf
  exact ⟨h0, hv, ha, hmass⟩

theorem fallback_sums_measured_bodies_witness :
    (GetAllBodies patchyPart = .ok [some 1, some 2, some 3] ∧
      AggregateFails patchyKernel [some 1, some 2, some 3] ∧
      measuredBodies patchyKernel [some 1, some 2, some 3] = [(1000, 600), (1000, 600)]) ∧
    (CalculateMassProperties patchyPart DENSITY_KG_PER_M3 callerVars).2.volumeM3 =
      ((measuredBodies patchyKernel [some 1, some 2, some 3]).map fun m =>
        m.1 * (GetDisplayUnitFactors patchyPart.UnitCollection).volumeFactor).sum :=
  ⟨⟨GetAllBodies_patchyPart, Or.inl ⟨_, rfl⟩, by
      simp [measuredBodies, bodyMeasurement, patchyKernel, List.enumFrom]⟩,
    (fallback_sums_measured_bodies patchyPart DENSITY_KG_PER_M3 callerVars
      [some 1, some 2, some 3] patchyKernel GetAllBodies_patchyPart (by simp) rfl
      (Or.inl ⟨_, rfl⟩)).2.1⟩

/-- C6: for a part whose body list is empty, `CalculateMassProperties` returns normally
with volumeM3 = 0, totalMassKg = 0 and totalSurfaceAreaM2 = 0, the unit name being the one
the unit resolver gave, and the record of kernel calls is unchanged: the measure manager
is not fetched and no mass-properties object is requested. -/
theorem empty_part_is_all_zero (part : Part) (d : ℚ) (v : CalcVars)
    (h : GetAllBodies part = .ok []) :
    (CalculateMassProperties part d v).1 = none ∧
    (CalculateMassProperties part d v).2.volumeM3 = 0 ∧
    (CalculateMassProperties part d v).2.totalMassKg = 0 ∧
    (CalculateMassProperties part d v).2.totalSurfaceAreaM2 = 0 ∧
    (CalculateMassProperties part d v).2.unitName =
      (GetDisplayUnitFactors part.UnitCollection).unitName ∧
    (CalculateMassProperties part d v).2.calls = v.calls := by
  rw [calc_empty part d v h]
  exact ⟨rfl, rfl, rfl, rfl, rfl, rfl⟩

theorem empty_part_is_all_zero_witness :
    GetAllBodies emptyPart = .ok [] ∧
    (CalculateMassProperties emptyPart DENSITY_KG_PER_M3 callerVars).1 = none ∧
    (CalculateMassProperties emptyPart DENSITY_KG_PER_M3 callerVars).2.calls = [] :=
  ⟨GetAllBodies_partOf_nil _,
    (empty_part_is_all_zero emptyPart DENSITY_KG_PER_M3 callerVars
      (GetAllBodies_partOf_nil _)).1,
    (empty_part_is_all_zero emptyPart DENSITY_KG_PER_M3 callerVars
      (GetAllBodies_partOf_nil _)).2.2.2.2.2⟩

/-! ## The driver -/

theorem lwWriteLine_works (h : Host) (hw : ∀ lines text, h.WriteLine lines text = .ok ())
    (text : String) (s : Run) :
    lwWriteLine h text s = (none, { s with lines := s.lines ++ [text] }) := by
  simp [lwWriteLine, hw]

theorem writeLines_works (h : Host) (hw : ∀ lines text, h.WriteLine lines text = .ok ())
    (texts : List String) : ∀ s : Run,
    writeLines h texts s = (none, { s with lines := s.lines ++ texts }) := by
  induction texts with
  | nil => intro s; simp [writeLines]
  | cons text more ih =>
    intro s
    simp [writeLines, lwWriteLine_works h hw, andThen, ih]

/-- One iteration of the file loop, handler included, when every `WriteLine` returns. -/
theorem fileLoop_cons_works (h : Host) (hw : ∀ lines text, h.WriteLine lines text = .ok ())
    (filePath : String) (rest : List String) (s : Run) :
    ∃ r, fileLoop h (filePath :: rest) s =
      fileLoop h rest
        { retcode := s.retcode, lines := s.lines ++ fileLines h filePath,
          attempted := s.attempted ++ [filePath], resident := r } := by
  simp only [fileLoop, fileTryBlock, fileLines, lwWriteLine_works h hw, andThen]
  cases ho : h.OpenBasePart filePath with
  | error e =>
    simp only [writeLines_works h hw, andThen, failureLines, List.append_assoc,
      List.singleton_append]
    exact ⟨_, rfl⟩
  | ok partPtr =>
    cases partPtr with
    | none =>
      simp only [List.append_assoc, List.singleton_append]
      exact ⟨_, rfl⟩
    | some part =>
      simp only []
      cases hc : CalculateMassProperties part DENSITY_KG_PER_M3 callerVars with
      | mk exn v =>
        cases exn with
        | some e =>
          simp only [writeLines_works h hw, andThen, failureLines, List.append_assoc,
            List.singleton_append]
          exact ⟨_, rfl⟩
        | none =>
          cases hcl : part.Close with
          | error e =>
            simp only [writeLines_works h hw, andThen, failureLines, List.append_assoc,
              List.singleton_append, List.cons_append]
            exact ⟨_, rfl⟩
          | ok u =>
            simp only [writeLines_works h hw, andThen, List.append_assoc,
              List.singleton_append, List.append_nil]
            exact ⟨_, rfl⟩

theorem fileLoop_works (h : Host) (hw : ∀ lines text, h.WriteLine lines text = .ok ())
    (files : List String) : ∀ s : Run,
    ∃ r, fileLoop h files s =
      (none, { retcode := s.retcode, lines := s.lines ++ files.flatMap (fileLines h),
               attempted := s.attempted ++ files, resident := r }) := by
  induction files with
  | nil => intro s; exact ⟨s.resident, by simp [fileLoop]⟩
  | cons filePath rest ih =>
    intro s
    obtain ⟨r, hr⟩ := fileLoop_cons_works h hw filePath rest s
    obtain ⟨r2, hr2⟩ := ih
      { retcode := s.retcode, lines := s.lines ++ fileLines h filePath,
        attempted := s.attempted ++ [filePath], resident := r }
    exact ⟨r2, by rw [hr, hr2]; simp [List.flatMap_cons]⟩

theorem GetPrtFilesInFolder_none (FindFirstFileA : String → FindResult) (folderPath : String)
    (h1 : FindFirstFileA (folderPath ++ "\\*.prt") = none)
    (h2 : FindFirstFileA (folderPath ++ "\\*.PRT") = none) :
    GetPrtFilesInFolder FindFirstFileA folderPath = [] := by
  simp [GetPrtFilesInFolder, h1, h2]

/-- The run of the driver when the window works and no file is found. -/
theorem ufusr_no_files (h : Host) (hw : WindowWorks h) (hf : foundFiles h = []) :
    ufusr h =
      { retcode := 0,
        lines := bannerLines h.GetCurrentDirectoryA ++ noFilesLines h.GetCurrentDirectoryA,
        attempted := [], resident := [] } := by
  obtain ⟨h1, h2, h3, h4⟩ := hw
  unfold foundFiles at hf
  simp [ufusr, initialRun, ufusrTryBlock, h1, h2, h3, writeLines_works h h4, andThen, hf]

/-- The run of the driver when the host works and files are found. -/
theorem ufusr_files (h : Host) (hw : HostWorks h) (hf : foundFiles h ≠ []) :
    ∃ r, ufusr h =
      { retcode := 0,
        lines := bannerLines h.GetCurrentDirectoryA ++ foundLines (foundFiles h) ++
          (foundFiles h).flatMap (fileLines h) ++ ["=== Processing completed ==="],
        attempted := foundFiles h, resident := r } := by
  obtain ⟨⟨h1, h2, h3, h4⟩, h5⟩ := hw
  have hne : (GetPrtFilesInFolder h.FindFirstFileA h.GetCurrentDirectoryA).isEmpty = false := by
    unfold foundFiles at hf
    cases hx : GetPrtFilesInFolder h.FindFirstFileA h.GetCurrentDirectoryA with
    | nil => exact absurd hx hf
    | cons f fs => rfl
  obtain ⟨r, hr⟩ := fileLoop_works h h4 (foundFiles h)
    { retcode := 0,
      lines := bannerLines h.GetCurrentDirectoryA ++ foundLines (foundFiles h),
      attempted := [], resident := [] }
  refine ⟨r, ?_⟩
  unfold foundFiles at hr
  simp [ufusr, initialRun, ufusrTryBlock, h1, h2, h3, h5, writeLines_works h h4,
    lwWriteLine_works h h4, andThen, hne, hr, foundFiles]

/-! ### The return code -/

theorem andThen_retcode (r : Option Exn × Run) (k : Run → Option Exn × Run)
    (hk : ∀ s, (k s).2.retcode = s.retcode) : (andThen r k).2.retcode = r.2.retcode := by
  obtain ⟨exn, s⟩ := r
  cases exn with
  | none => simp [andThen, hk]
  | some e => simp [andThen]

theorem lwWriteLine_retcode (h : Host) (text : String) (s : Run) :
    (lwWriteLine h text s).2.retcode = s.retcode := by
  unfold lwWriteLine
  cases h.WriteLine s.lines text <;> rfl

theorem writeLines_retcode (h : Host) (texts : List String) :
    ∀ s : Run, (writeLines h texts s).2.retcode = s.retcode := by
  induction texts with
  | nil => intro s; rfl
  | cons text more ih =>
    intro s
    unfold writeLines
    rw [andThen_retcode _ _ ih, lwWriteLine_retcode]

theorem fileTryBlock_retcode (h : Host) (filePath : String) (s : Run) :
    (fileTryBlock h filePath s).2.retcode = s.retcode := by
  unfold fileTryBlock
  simp only []
  rw [andThen_retcode, lwWriteLine_retcode]
  intro s1
  cases h.OpenBasePart filePath with
  | error e => rfl
  | ok partPtr =>
    cases partPtr with
    | none => exact lwWriteLine_retcode h _ _
    | some part =>
      simp only []
      cases CalculateMassProperties part DENSITY_KG_PER_M3 callerVars with
      | mk exn v =>
        cases exn with
        | some e => rfl
        | none =>
          simp only []
          rw [andThen_retcode, writeLines_retcode]
          intro s2
          cases part.Close <;> rfl

theorem fileLoop_retcode (h : Host) (files : List String) :
    ∀ s : Run, (fileLoop h files s).2.retcode = s.retcode := by
  induction files with
  | nil => intro s; rfl
  | cons filePath rest ih =>
    intro s
    unfold fileLoop
    have ht := fileTryBlock_retcode h filePath s
    rcases hr : fileTryBlock h filePath s with ⟨exn, s1⟩
    rw [hr] at ht
    cases exn with
    | none => simp only []; rw [ih]; exact ht
    | some e =>
      simp only []
      rw [andThen_retcode _ _ ih, writeLines_retcode]
      exact ht

theorem ufusrTryBlock_retcode (h : Host) (s : Run) :
    (ufusrTryBlock h s).2.retcode = s.retcode := by
  unfold ufusrTryBlock
  cases h.GetSession with
  | error e => rfl
  | ok u1 =>
    cases h.ListingWindow with
    | error e => rfl
    | ok u2 =>
      cases h.Open with
      | error e => rfl
      | ok u3 =>
        simp only []
        rw [andThen_retcode, writeLines_retcode]
        intro s1
        split_ifs
        · exact writeLines_retcode h _ _
        · rw [andThen_retcode, writeLines_retcode]
          intro s2
          cases h.Parts with
          | error e => rfl
          | ok u4 =>
            simp only []
            rw [andThen_retcode, fileLoop_retcode]
            intro s3
            exact lwWriteLine_retcode h _ _

theorem ufusr_retcode (h : Host) :
    ((ufusrTryBlock h initialRun).1 = none → (ufusr h).retcode = 0) ∧
    (∀ e, (ufusrTryBlock h initialRun).1 = some e → (ufusr h).retcode = 1) := by
  have hkeep := ufusrTryBlock_retcode h initialRun
  unfold ufusr
  rcases hr : ufusrTryBlock h initialRun with ⟨exn, s⟩
  rw [hr] at hkeep
  constructor
  · intro hn
    simp only at hn
    subst hn
    exact hkeep
  · intro e he
    simp only at he
    subst he
    rfl

theorem ufusr_works_retcode (h : Host) (hw : HostWorks h) : (ufusr h).retcode = 0 := by
  by_cases hf : foundFiles h = []
  · rw [ufusr_no_files h hw.1 hf]
  · obtain ⟨r, hr⟩ := ufusr_files h hw hf
    rw [hr]

/-! ### Claims about the driver -/

/-- C8, evaluated where it fails: the scan finds the single file `a.prt`, `OpenBasePart`
opens it, and retrieving its bodies raises "Cannot get bodies" inside
`CalculateMassProperties`.  The handler logs the error, `Close` is never called, and the
run ends with return code 0 while the part is still resident. -/
theorem opened_part_left_resident :
    foundFiles leakHost = ["C:\\parts\\a.prt"] ∧
    leakHost.OpenBasePart "C:\\parts\\a.prt" = .ok (some noBodiesPart) ∧
    (CalculateMassProperties noBodiesPart DENSITY_KG_PER_M3 callerVars).1 =
      some "Cannot get bodies" ∧
    (ufusr leakHost).resident = ["C:\\parts\\a.prt"] ∧
    (ufusr leakHost).retcode = 0 :=
  ⟨rfl, rfl, rfl, rfl, rfl⟩

/-- C9: when the session and the listing window keep working, the driver finishes with
return code 0, calls `OpenBasePart` on every found file, in order, whatever happened to
the files before it, and the listing window holds, after the banner and the file list,
the lines of each file in order (its announcement and, when the part cannot be opened or
an error is raised while it is opened, measured or closed, the failure message) and the
closing line.  The return code is 0 or 1, and it is 1 exactly when an exception leaves
the outer `try` block, which does not happen while the session and the window work. -/
theorem driver_attempts_every_file (h : Host) :
    (HostWorks h →
      (ufusr h).retcode = 0 ∧
      (ufusr h).attempted = foundFiles h ∧
      (foundFiles h ≠ [] →
        (ufusr h).lines =
          bannerLines h.GetCurrentDirectoryA ++ foundLines (foundFiles h) ++
            (foundFiles h).flatMap (fileLines h) ++ ["=== Processing completed ==="])) ∧
    ((ufusr h).retcode = 0 ∨ (ufusr h).retcode = 1) ∧
    ((ufusr h).retcode = 1 ↔ ∃ e, (ufusrTryBlock h initialRun).1 = some e) ∧
    ((ufusr h).retcode = 1 → ¬ HostWorks h) := by
  obtain ⟨h0, h1⟩ := ufusr_retcode h
  refine ⟨fun hw => ⟨ufusr_works_retcode h hw, ?_, ?_⟩, ?_, ?_, ?_⟩
  · by_cases hf : foundFiles h = []
    · rw [ufusr_no_files h hw.1 hf, hf]
    · obtain ⟨r, hr⟩ := ufusr_files h hw hf
      rw [hr]
  · intro hf
    obtain ⟨r, hr⟩ := ufusr_files h hw hf
    rw [hr]
  · cases hx : (ufusrTryBlock h initialRun).1 with
    | none => exact Or.inl (h0 hx)
    | some e => exact Or.inr (h1 e hx)
  · constructor
    · intro hone
      cases hx : (ufusrTryBlock h initialRun).1 with
      | none =>
        rw [h0 hx] at hone
        exact absurd hone (by decide)
      | some e => exact ⟨e, rfl⟩
    · rintro ⟨e, he⟩
      exact h1 e he
  · intro hone hw
    rw [ufusr_works_retcode h hw] at hone
    exact absurd hone (by decide)

theorem driver_attempts_every_file_witness :
    HostWorks mixedHost ∧
    (ufusr mixedHost).retcode = 0 ∧
    (ufusr mixedHost).attempted =
      ["C:\\parts\\a.prt", "C:\\parts\\b.prt", "C:\\parts\\c.prt"] :=
  ⟨⟨⟨rfl, rfl, rfl, fun _ _ => rfl⟩, rfl⟩,
    ((driver_attempts_every_file mixedHost).1 ⟨⟨rfl, rfl, rfl, fun _ _ => rfl⟩, rfl⟩).1,
    ((driver_attempts_every_file mixedHost).1 ⟨⟨rfl, rfl, rfl, fun _ _ => rfl⟩, rfl⟩).2.1⟩

/-- C10, as stated, fails: neither search finds an entry and the scan returns the empty
list, but the listing window stops accepting lines after the banner, so the "No .prt
files found." message is not written and the run ends with return code 1. -/
theorem no_files_message_lost :
    fullWindowHost.FindFirstFileA (fullWindowHost.GetCurrentDirectoryA ++ "\\*.prt") = none ∧
    fullWindowHost.FindFirstFileA (fullWindowHost.GetCurrentDirectoryA ++ "\\*.PRT") = none ∧
    foundFiles fullWindowHost = [] ∧
    "No .prt files found." ∉ (ufusr fullWindowHost).lines ∧
    (ufusr fullWindowHost).retcode = 1 := by
  refine ⟨rfl, rfl, rfl, ?_, rfl⟩
  rw [show (ufusr fullWindowHost).lines = bannerLines "C:\\parts" from rfl]
  decide

/-- C10, amended: when neither the "*.prt" nor the "*.PRT" search finds a first entry,
`GetPrtFilesInFolder` returns the empty list; if moreover the session and the listing
window work, `ufusr` writes, after the banner, the "No .prt files found." message and the
hint naming the directory, calls `OpenBasePart` on nothing, leaves no part open and
finishes with return code 0. -/
theorem no_files_reported (h : Host)
    (h1 : h.FindFirstFileA (h.GetCurrentDirectoryA ++ "\\*.prt") = none)
    (h2 : h.FindFirstFileA (h.GetCurrentDirectoryA ++ "\\*.PRT") = none) :
    GetPrtFilesInFolder h.FindFirstFileA h.GetCurrentDirectoryA = [] ∧
    (WindowWorks h →
      (ufusr h).lines =
        bannerLines h.GetCurrentDirectoryA ++
          ["No .prt files found.",
           "Please place .prt files in current directory: " ++ h.GetCurrentDirectoryA] ∧
      (ufusr h).attempted = [] ∧
      (ufusr h).resident = [] ∧
      (ufusr h).retcode = 0) := by
  have hf := GetPrtFilesInFolder_none h.FindFirstFileA h.GetCurrentDirectoryA h1 h2
  refine ⟨hf, fun hw => ?_⟩
  rw [ufusr_no_files h hw hf]
  exact ⟨rfl, rfl, rfl, rfl⟩

theorem no_files_reported_witness :
    (noFilesHost.FindFirstFileA (noFilesHost.GetCurrentDirectoryA ++ "\\*.prt") = none ∧
      noFilesHost.FindFirstFileA (noFilesHost.GetCurrentDirectoryA ++ "\\*.PRT") = none ∧
      WindowWorks noFilesHost) ∧
    (ufusr noFilesHost).lines =
      bannerLines "C:\\parts" ++
        ["No .prt files found.", "Please place .prt files in current directory: C:\\parts"] ∧
    (ufusr noFilesHost).retcode = 0 :=
  ⟨⟨rfl, rfl, rfl, rfl, rfl, fun _ _ => rfl⟩,
    ((no_files_reported noFilesHost rfl rfl).2 ⟨rfl, rfl, rfl, fun _ _ => rfl⟩).1,
    ((no_files_reported noFilesHost rfl rfl).2 ⟨rfl, rfl, rfl, fun _ _ => rfl⟩).2.2.2⟩

/-! ## The directory scan -/

theorem scanLoop_eq (folderPath : String) (rest : List WIN32_FIND_DATAA) :
    ∀ (findData : WIN32_FIND_DATAA) (prtFiles : List String),
    scanLoop folderPath findData rest prtFiles =
      prtFiles ++ (((findData :: rest).filter fun d => !isDirectory d).map
        (pathIn folderPath)) := by
  induction rest with
  | nil =>
    intro findData prtFiles
    unfold scanLoop
    by_cases hd : findData.dwFileAttributes &&& FILE_ATTRIBUTE_DIRECTORY = 0
    · simp [hd, isDirectory, pathIn]
    · simp [hd, isDirectory]
  | cons next more ih =>
    intro findData prtFiles
    unfold scanLoop
    simp only []
    rw [ih]
    by_cases hd : findData.dwFileAttributes &&& FILE_ATTRIBUTE_DIRECTORY = 0
    · simp [hd, isDirectory, pathIn, List.filter_cons]
    · simp [hd, isDirectory, List.filter_cons]

theorem GetPrtFilesInFolder_eq (FindFirstFileA : String → FindResult) (folderPath : String) :
    GetPrtFilesInFolder FindFirstFileA folderPath =
      (((enumerated FindFirstFileA folderPath).filter fun d => !isDirectory d).map
        (pathIn folderPath)) := by
  unfold GetPrtFilesInFolder enumerated
  cases h1 : FindFirstFileA (folderPath ++ "\\*.prt") with
  | some found1 =>
    obtain ⟨first, rest⟩ := found1
    simp [scanLoop_eq]
  | none =>
    cases h2 : FindFirstFileA (folderPath ++ "\\*.PRT") with
    | some found2 =>
      obtain ⟨first, rest⟩ := found2
      simp [scanLoop_eq]
    | none => simp

/-- C11: with the platform search seen as the sequence of entries it enumerates for the
pattern that first succeeds ("*.prt", else "*.PRT"), `GetPrtFilesInFolder` returns exactly
the entries that are not directories, in enumeration order, none added and none dropped,
each as folder, backslash, name.  Every returned path comes from an enumerated entry
that is not a directory; the result depends on nothing but the answers to the two search
paths of the folder itself (no other directory is searched); and when neither search
finds a first entry the result is the empty list. -/
theorem scan_returns_files_in_order (FindFirstFileA : String → FindResult)
    (folderPath : String) :
    GetPrtFilesInFolder FindFirstFileA folderPath =
      (((enumerated FindFirstFileA folderPath).filter fun d => !isDirectory d).map
        fun d => folderPath ++ "\\" ++ d.cFileName) ∧
    (GetPrtFilesInFolder FindFirstFileA folderPath).length =
      ((enumerated FindFirstFileA folderPath).filter fun d => !isDirectory d).length ∧
    (∀ filePath ∈ GetPrtFilesInFolder FindFirstFileA folderPath,
      ∃ d ∈ enumerated FindFirstFileA folderPath,
        isDirectory d = false ∧ filePath = folderPath ++ "\\" ++ d.cFileName) ∧
    (∀ otherSearch : String → FindResult,
      otherSearch (folderPath ++ "\\*.prt") = FindFirstFileA (folderPath ++ "\\*.prt") →
      otherSearch (folderPath ++ "\\*.PRT") = FindFirstFileA (folderPath ++ "\\*.PRT") →
      GetPrtFilesInFolder otherSearch folderPath =
        GetPrtFilesInFolder FindFirstFileA folderPath) ∧
    (FindFirstFileA (folderPath ++ "\\*.prt") = none →
      FindFirstFileA (folderPath ++ "\\*.PRT") = none →
      GetPrtFilesInFolder FindFirstFileA folderPath = []) := by
  have heq := GetPrtFilesInFolder_eq FindFirstFileA folderPath
  refine ⟨heq, ?_, ?_, ?_, ?_⟩
  · rw [heq, List.length_map]
  · intro filePath hmem
    rw [heq, List.mem_map] at hmem
    obtain ⟨d, hd, rfl⟩ := hmem
    rw [List.mem_filter] at hd
    exact ⟨d, hd.1, by simpa using hd.2, rfl⟩
  · intro otherSearch h1 h2
    simp only [GetPrtFilesInFolder, h1, h2]
  · intro h1 h2
    simp [GetPrtFilesInFolder, h1, h2]

theorem scan_returns_files_in_order_witness :
    (upperCaseSearch ("D:\\cad" ++ "\\*.prt") = none ∧
      enumerated upperCaseSearch "D:\\cad" =
        [{ dwFileAttributes := 0x20, cFileName := "X.PRT" },
         { dwFileAttributes := 0x10, cFileName := "sub.PRT" },
         { dwFileAttributes := 0x80, cFileName := "Y.PRT" }]) ∧
    GetPrtFilesInFolder upperCaseSearch "D:\\cad" = ["D:\\cad\\X.PRT", "D:\\cad\\Y.PRT"] ∧
    GetPrtFilesInFolder (fun _ => none) "D:\\cad" = [] :=
  ⟨⟨rfl, rfl⟩,
    (scan_returns_files_in_order upperCaseSearch "D:\\cad").1.trans rfl,
    (scan_returns_files_in_order (fun _ => none) "D:\\cad").2.2.2.2 rfl rfl⟩

/-! ## The report -/

theorem resultLines_eq (h : Host) (v : CalcVars) :
    resultLines h v =
      [ "  Unit system: " ++ v.unitName,
        "  Volume: " ++ h.to_string v.volumeM3 ++ " m^3",
        "  Mass: " ++ h.to_string v.totalMassKg ++ " kg",
        "  Surface area: " ++ h.to_string v.totalSurfaceAreaM2 ++ " m^2",
        "  Mass: " ++ h.to_string (v.totalMassKg * 1000) ++ " g",
        "  Surface area: " ++ h.to_string (v.totalSurfaceAreaM2 * 10000) ++ " cm^2",
        "" ] := by
  have h1 : v.totalMassKg * 1000.0 = v.totalMassKg * 1000 := by norm_num
  have h2 : v.totalSurfaceAreaM2 * 10000.0 = v.totalSurfaceAreaM2 * 10000 := by norm_num
  simp only [resultLines, h1, h2]

theorem fileLines_measured (h : Host) (filePath : String) (part : Part) (v : CalcVars)
    (hopen : h.OpenBasePart filePath = .ok (some part))
    (hcalc : CalculateMassProperties part DENSITY_KG_PER_M3 callerVars = (none, v)) :
    ∃ closing, fileLines h filePath =
      ("Processing file: " ++ displayName filePath) :: resultLines h v ++ closing := by
  simp only [fileLines, hopen, hcalc]
  exact ⟨_, rfl⟩

/-- C12: for every file that is processed (found by the scan, opened, and measured by
`CalculateMassProperties` with outputs totalMassKg and totalSurfaceAreaM2), the block the
driver writes for it reports, after the SI values, the mass in grams as
totalMassKg * 1000 and the surface area in cm^2 as totalSurfaceAreaM2 * 10000, over exact
arithmetic.  This holds for the block of result lines as such, and the block stands in
the listing window of every run in which the session and the window work. -/
theorem gram_and_cm2_from_si (h : Host) (v : CalcVars) :
    resultLines h v =
      [ "  Unit system: " ++ v.unitName,
        "  Volume: " ++ h.to_string v.volumeM3 ++ " m^3",
        "  Mass: " ++ h.to_string v.totalMassKg ++ " kg",
        "  Surface area: " ++ h.to_string v.totalSurfaceAreaM2 ++ " m^2",
        "  Mass: " ++ h.to_string (v.totalMassKg * 1000) ++ " g",
        "  Surface area: " ++ h.to_string (v.totalSurfaceAreaM2 * 10000) ++ " cm^2",
        "" ] ∧
    (∀ (filePath : String) (part : Part), HostWorks h → filePath ∈ foundFiles h →
      h.OpenBasePart filePath = .ok (some part) →
      CalculateMassProperties part DENSITY_KG_PER_M3 callerVars = (none, v) →
      ∃ before after, (ufusr h).lines =
        before ++
          [ "Processing file: " ++ displayName filePath,
            "  Unit system: " ++ v.unitName,
            "  Volume: " ++ h.to_string v.volumeM3 ++ " m^3",
            "  Mass: " ++ h.to_string v.totalMassKg ++ " kg",
            "  Surface area: " ++ h.to_string v.totalSurfaceAreaM2 ++ " m^2",
            "  Mass: " ++ h.to_string (v.totalMassKg * 1000) ++ " g",
            "  Surface area: " ++ h.to_string (v.totalSurfaceAreaM2 * 10000) ++ " cm^2",
            "" ] ++ after) := by
  refine ⟨resultLines_eq h v, ?_⟩
  intro filePath part hw hmem hopen hcalc
  have hne : foundFiles h ≠ [] := List.ne_nil_of_mem hmem
  obtain ⟨r, hr⟩ := ufusr_files h hw hne
  obtain ⟨l1, l2, hsplit⟩ := List.append_of_mem hmem
  obtain ⟨closing, hfile⟩ := fileLines_measured h filePath part v hopen hcalc
  refine ⟨bannerLines h.GetCurrentDirectoryA ++ foundLines (foundFiles h) ++
      l1.flatMap (fileLines h),
    closing ++ l2.flatMap (fileLines h) ++ ["=== Processing completed ==="], ?_⟩
  rw [hr]
  simp only []
  rw [← resultLines_eq h v]
  conv_lhs => rw [hsplit]
  rw [List.flatMap_append, List.flatMap_cons, hfile]
  simp [List.append_assoc]
  rw [hsplit]

theorem gram_and_cm2_from_si_witness :
    (HostWorks mixedHost ∧ "C:\\parts\\c.prt" ∈ foundFiles mixedHost ∧
      mixedHost.OpenBasePart "C:\\parts\\c.prt" = .ok (some twoBodyPart) ∧
      (CalculateMassProperties twoBodyPart DENSITY_KG_PER_M3 callerVars).1 = none) ∧
    ∃ before after, (ufusr mixedHost).lines =
      before ++
        [ "Processing file: " ++ displayName "C:\\parts\\c.prt",
          "  Unit system: " ++
            (CalculateMassProperties twoBodyPart DENSITY_KG_PER_M3 callerVars).2.unitName,
          "  Volume: " ++ mixedHost.to_string
            (CalculateMassProperties twoBodyPart DENSITY_KG_PER_M3 callerVars).2.volumeM3 ++
            " m^3",
          "  Mass: " ++ mixedHost.to_string
            (CalculateMassProperties twoBodyPart DENSITY_KG_PER_M3 callerVars).2.totalMassKg ++
            " kg",
          "  Surface area: " ++ mixedHost.to_string
            (CalculateMassProperties twoBodyPart DENSITY_KG_PER_M3
              callerVars).2.totalSurfaceAreaM2 ++ " m^2",
          "  Mass: " ++ mixedHost.to_string
            ((CalculateMassProperties twoBodyPart DENSITY_KG_PER_M3 callerVars).2.totalMassKg
              * 1000) ++ " g",
          "  Surface area: " ++ mixedHost.to_string
            ((CalculateMassProperties twoBodyPart DENSITY_KG_PER_M3
              callerVars).2.totalSurfaceAreaM2 * 10000) ++ " cm^2",
          "" ] ++ after :=
  ⟨⟨⟨⟨rfl, rfl, rfl, fun _ _ => rfl⟩, rfl⟩,
      by rw [show foundFiles mixedHost =
        ["C:\\parts\\a.prt", "C:\\parts\\b.prt", "C:\\parts\\c.prt"] from rfl]; simp,
      rfl, rfl⟩,
    (gram_and_cm2_from_si mixedHost
      (CalculateMassProperties twoBodyPart DENSITY_KG_PER_M3 callerVars).2).2
      "C:\\parts\\c.prt" twoBodyPart ⟨⟨rfl, rfl, rfl, fun _ _ => rfl⟩, rfl⟩
      (by rw [show foundFiles mixedHost =
        ["C:\\parts\\a.prt", "C:\\parts\\b.prt", "C:\\parts\\c.prt"] from rfl]; simp)
      rfl rfl⟩

/-! ## Area factors -/

theorem factors_of_Foot : GetDisplayUnitFactors (lookupOk "Foot") = footFactors :=
  (factors_by_first_token (lookupOk "Foot") "Foot" (lookupOk_yields _)).2.2.2.1
    ((not_found_iff _ _).mp (by decide)) ((not_found_iff _ _).mp (by decide))
    ((not_found_iff _ _).mp (by decide)) (List.infix_refl _)

/-- C13, as stated, fails for the foot: the area factor 0.092903 that
`GetDisplayUnitFactors` returns is not the square of the length factor 0.3048, which is
0.09290304. -/
theorem foot_area_factor_ne_square :
    (GetDisplayUnitFactors (lookupOk "Foot")).areaFactor ≠
      (GetDisplayUnitFactors (lookupOk "Foot")).lengthFactor ^ 2 := by
  rw [factors_of_Foot]
  norm_num [footFactors]

/-- C13, amended: for millimeter, meter and inch, and for the millimeter default (the
lookup raises, or the identifier contains none of the four tokens), the area factor is
exactly the square of the length factor (1e-6, 1, 6.4516e-4, 1e-6); for the foot it is
the decimal 0.092903, the square 0.09290304 of 0.3048 rounded to six decimal places: it is
4e-8 below the exact square. -/
theorem area_factor_square_or_rounded (unitCollection : Except Exn UnitCollectionH) :
    (LookupRaises unitCollection →
      (GetDisplayUnitFactors unitCollection).lengthFactor = 0.001 ∧
      (GetDisplayUnitFactors unitCollection).areaFactor = 1e-6 ∧
      (GetDisplayUnitFactors unitCollection).areaFactor =
        (GetDisplayUnitFactors unitCollection).lengthFactor ^ 2) ∧
    (∀ journalId, LookupYields unitCollection journalId →
      (Occurs "MilliMeter" journalId →
        (GetDisplayUnitFactors unitCollection).lengthFactor = 0.001 ∧
        (GetDisplayUnitFactors unitCollection).areaFactor = 1e-6 ∧
        (GetDisplayUnitFactors unitCollection).areaFactor =
          (GetDisplayUnitFactors unitCollection).lengthFactor ^ 2) ∧
      (¬ Occurs "MilliMeter" journalId → Occurs "Meter" journalId →
        (GetDisplayUnitFactors unitCollection).lengthFactor = 1 ∧
        (GetDisplayUnitFactors unitCollection).areaFactor = 1 ∧
        (GetDisplayUnitFactors unitCollection).areaFactor =
          (GetDisplayUnitFactors unitCollection).lengthFactor ^ 2) ∧
      (¬ Occurs "MilliMeter" journalId → ¬ Occurs "Meter" journalId →
        Occurs "Inch" journalId →
        (GetDisplayUnitFactors unitCollection).lengthFactor = 0.0254 ∧
        (GetDisplayUnitFactors unitCollection).areaFactor = 6.4516e-4 ∧
        (GetDisplayUnitFactors unitCollection).areaFactor =
          (GetDisplayUnitFactors unitCollection).lengthFactor ^ 2) ∧
      (¬ Occurs "MilliMeter" journalId → ¬ Occurs "Meter" journalId →
        ¬ Occurs "Inch" journalId → Occurs "Foot" journalId →
        (GetDisplayUnitFactors unitCollection).lengthFactor = 0.3048 ∧
        (GetDisplayUnitFactors unitCollection).areaFactor = 0.092903 ∧
        (GetDisplayUnitFactors unitCollection).lengthFactor ^ 2 -
          (GetDisplayUnitFactors unitCollection).areaFactor = 4e-8) ∧
      (¬ Occurs "MilliMeter" journalId → ¬ Occurs "Meter" journalId →
        ¬ Occurs "Inch" journalId → ¬ Occurs "Foot" journalId →
        (GetDisplayUnitFactors unitCollection).lengthFactor = 0.001 ∧
        (GetDisplayUnitFactors unitCollection).areaFactor = 1e-6 ∧
        (GetDisplayUnitFactors unitCollection).areaFactor =
          (GetDisplayUnitFactors unitCollection).lengthFactor ^ 2)) := by
  refine ⟨fun hr => ?_, fun journalId hy => ?_⟩
  · rw [GetDisplayUnitFactors_of_raises _ hr]
    norm_num [defaultFactors]
  · obtain ⟨h1, h2, h3, h4, h5⟩ := factors_by_first_token unitCollection journalId hy
    refine ⟨fun a => ?_, fun a b => ?_, fun a b c => ?_, fun a b c d => ?_,
      fun a b c d => ?_⟩
    · rw [h1 a]
      norm_num [millimeterFactors]
    · rw [h2 a b]
      norm_num [meterFactors]
    · rw [h3 a b c]
      norm_num [inchFactors]
    · rw [h4 a b c d]
      norm_num [footFactors]
    · rw [h5 a b c d]
      norm_num [unknownFactors]

theorem area_factor_square_or_rounded_witness :
    (LookupYields (lookupOk "Inch") "Inch" ∧
      (GetDisplayUnitFactors (lookupOk "Inch")).areaFactor =
        (GetDisplayUnitFactors (lookupOk "Inch")).lengthFactor ^ 2) ∧
    (LookupRaises (Except.error "no unit collection") ∧
      (GetDisplayUnitFactors (Except.error "no unit collection")).areaFactor =
        (GetDisplayUnitFactors (Except.error "no unit collection")).lengthFactor ^ 2) :=
  ⟨⟨lookupOk_yields _,
      (((area_factor_square_or_rounded (lookupOk "Inch")).2 "Inch"
        (lookupOk_yields _)).2.2.1
        ((not_found_iff _ _).mp (by decide)) ((not_found_iff _ _).mp (by decide))
        (List.infix_refl _)).2.2⟩,
    ⟨Or.inl ⟨_, rfl⟩,
      ((area_factor_square_or_rounded (Except.error "no unit collection")).1
        (Or.inl ⟨_, rfl⟩)).2.2⟩⟩

end MassProps
